import Mathlib

/-!
# The asset-creation dialog of `src/qt/createassetdialog.cpp`

A shallow embedding of `CreateAssetDialog`: the widgets the slots read and
write are fields of one record, every slot or helper method is a function on
that record, and the collaborators the file only calls (name grammar, asset
index, address decoding, IPFS decoding, burn table, wallet) are the fields of
an environment record.

Conventions
* `QString` is `String`; `QString::size()` counts UTF-16 code units and is
  `qsize`; `toStdString()` and `fromStdString` are the identity; `tr` is the
  identity.
* `AssetType` is an enumeration whose values are carried as `int` by the
  dialog (`IntFromAssetType`, `AssetTypeFromInt` are the casts), so a type is
  an `Int` and the three enumerators are fields of the environment.
* `CAmount` is a 64-bit signed integer, held as an `Int`; where the source
  adds two amounts the sum is reduced to the 64-bit range.
* A slot is modelled by its body.  What a widget does on its own inside a
  call is not in the source file and is not modelled: the signal sent again
  by `setText`, `clear` or `setValue`, and a line edit cutting its text to a
  new maximum length.
* Two fields of the dialog record are ghosts: `formChecks` counts the entries
  into `CheckFormState`, `lastAvailable` remembers the name the last
  availability check found free.
-/

namespace Astral

/-! ## Strings -/

/-- Number of UTF-16 code units of a character, the unit `QString` counts in. -/
def qunits (c : Char) : Nat := if c.toNat < 65536 then 1 else 2

/-- The value of `QString::size()`. -/
def qsize (s : String) : Nat := (s.data.map qunits).sum

/-- The value of `QString::isEmpty()`. -/
def qIsEmpty (s : String) : Bool := qsize s == 0

/-! ## Collaborators -/

/-- The destination variant of `script/standard.h`: no destination, a key
hash or a script hash. -/
inductive CTxDestination where
  | CNoDestination
  | CKeyID (hash : Nat)
  | CScriptID (hash : Nat)
  deriving DecidableEq

/-- The fields of `CCoinControl` this dialog touches. -/
structure CCoinControl where
  destChange : CTxDestination
  m_feerate : Option Int
  m_confirm_target : Option Int
  setSelected : List (Nat × Nat)
  deriving DecidableEq

/-- A default-constructed `CCoinControl` (`SetNull`). -/
def CCoinControl.null : CCoinControl :=
  { destChange := CTxDestination.CNoDestination, m_feerate := none,
    m_confirm_target := none, setSelected := [] }

/-- The test `CCoinControl::HasSelected`. -/
def CCoinControl.HasSelected (c : CCoinControl) : Bool := !c.setSelected.isEmpty

/-- The arguments of the six-argument constructor of `CNewAsset`. -/
structure CNewAsset where
  strName : String
  nAmount : Int
  units : Int
  nReissuable : Int
  nHasIPFS : Int
  strIPFSHash : String
  deriving DecidableEq

/-- The options model of the wallet model. -/
structure OptionsModel where
  displayUnit : Int
  coinControlFeatures : Bool
  deriving DecidableEq

/-- The address table of the wallet model: the address `addRow` hands out
and the label lookup. -/
structure AddressTableModel where
  addRow : String
  labelForAddress : String → String

/-- The wallet model: its two sub-models, either of which may be null, the
spendability test and the administrative assets of the wallet. -/
structure WalletModel where
  optionsModel : Option OptionsModel
  addressTableModel : Option AddressTableModel
  IsSpendable : CTxDestination → Bool
  administrativeAssets : List String

/-- Everything the dialog calls but does not define. -/
structure Env where
  /-- The enumerator `AssetType::ROOT` as an `int`. -/
  ROOT : Int
  /-- The enumerator `AssetType::SUB` as an `int`. -/
  SUB : Int
  /-- The enumerator `AssetType::UNIQUE` as an `int`. -/
  UNIQUE : Int
  /-- The validity verdict and the error text of `IsTypeCheckNameValid`. -/
  IsTypeCheckNameValid : Int → String → Bool × String
  /-- The global `passets`: null, or the lookup `GetAssetMetaDataIfExists`. -/
  passets : Option (String → Bool)
  DecodeDestination : String → CTxDestination
  IsValidDestination : CTxDestination → Bool
  CheckEncodedIPFS : String → Bool
  DecodeIPFS : String → String
  GetBurnAmount : Int → Int
  GetBurnAddress : Int → String
  getConfTargetForIndex : Int → Int
  /-- The amount `quantitySpinBox->value() * COIN`. -/
  quantityAmount : Int → Int
  /-- The member `model`, possibly null. -/
  model : Option WalletModel
  /-- The result of `CreateAssetTransaction`: the error text, or the
  transaction and the fee it requires. -/
  CreateAssetTransaction : CCoinControl → CNewAsset → String → Except String (Nat × Int)
  /-- The result of `SendAssetTransaction`: the error text, or the txid. -/
  SendAssetTransaction : Nat → Except String String
  /-- Whether `CoinControlDialog::updateLabels` shows the label
  `labelCoinControlInsuffFunds`. -/
  insufficientFunds : CCoinControl → List Int → Bool
  /-- The function `QString::toUpper`. -/
  toUpper : String → String

/-- The three issuable enumerators have three different values. -/
def Env.distinctCodes (env : Env) : Prop :=
  env.ROOT ≠ env.SUB ∧ env.ROOT ≠ env.UNIQUE ∧ env.SUB ≠ env.UNIQUE

instance (env : Env) : Decidable env.distinctCodes := by
  unfold Env.distinctCodes; infer_instance

/-- The cast `AssetTypeFromInt`. -/
def AssetTypeFromInt (nType : Int) : Int := nType

/-- The value of a 64-bit signed integer after an operation whose exact
result is `x`. -/
def wrapInt64 (x : Int) : Int := (x + 2 ^ 63) % 2 ^ 64 - 2 ^ 63

/-- The button code `QMessageBox::Yes`. -/
def QMessageBox.Yes : Int := 16384

/-- The button code `QMessageBox::Cancel`. -/
def QMessageBox.Cancel : Int := 4194304

/-! ## The dialog -/

/-- The widgets and members of the dialog, the three statics of
`CoinControlDialog` it writes, and two ghost fields. -/
structure Dialog where
  /-- The member `type`. -/
  type : Int
  /-- The member `checkedAvailablity`. -/
  checkedAvailablity : Bool
  nameText : String
  nameTextStyle : String
  nameTextMaxLength : Int
  addressText : String
  addressTextStyle : String
  ipfsBox : Bool
  ipfsText : String
  ipfsTextStyle : String
  ipfsTextVisible : Bool
  /-- The current text of the combo box `assetList`. -/
  assetList : String
  assetListVisible : Bool
  assetFullName : String
  messageLabel : String
  messageLabelStyle : String
  messageLabelVisible : Bool
  /-- Whether `createAssetButton` is enabled. -/
  createAssetButton : Bool
  /-- Whether `availabilityButton` is enabled. -/
  availabilityButton : Bool
  quantitySpinBox : Int
  quantitySpinBoxEnabled : Bool
  unitBox : Int
  unitBoxEnabled : Bool
  reissuableBox : Bool
  reissuableBoxEnabled : Bool
  radioCustomFee : Bool
  customFee : Int
  confTargetSelector : Int
  lineEditCoinControlChange : String
  lineEditCoinControlChangeEnabled : Bool
  labelCoinControlChangeLabel : String
  labelCoinControlChangeLabelStyle : String
  labelCoinControlAutomaticallySelected : Bool
  widgetCoinControl : Bool
  labelCoinControlInsuffFunds : Bool
  /-- The static `CoinControlDialog::coinControl`. -/
  coinControl : CCoinControl
  /-- The static `CoinControlDialog::payAmounts`. -/
  payAmounts : List Int
  /-- The static `CoinControlDialog::fSubtractFeeFromAmount`. -/
  fSubtractFeeFromAmount : Bool
  /-- Ghost: how many times `CheckFormState` has been entered. -/
  formChecks : Nat
  /-- Ghost: the name the last `checkAvailabilityClicked` found free. -/
  lastAvailable : Option String
  deriving DecidableEq

/-- The method `showMessage`. -/
def showMessage (s : Dialog) (string : String) : Dialog :=
  { s with messageLabelStyle := "color: red; font-size: 15pt;font-weight: bold;",
           messageLabel := string, messageLabelVisible := true }

/-- The method `showValidMessage`. -/
def showValidMessage (s : Dialog) (string : String) : Dialog :=
  { s with messageLabelStyle := "color: green; font-size: 15pt;font-weight: bold;",
           messageLabel := string, messageLabelVisible := true }

/-- The method `hideMessage`. -/
def hideMessage (s : Dialog) : Dialog :=
  let s := { s with nameTextStyle := "", addressTextStyle := "" }
  let s := if s.ipfsBox then { s with ipfsTextStyle := "" } else s
  { s with messageLabelVisible := false }

/-- The method `disableCreateButton`. -/
def disableCreateButton (s : Dialog) : Dialog :=
  { s with createAssetButton := false }

/-- The method `enableCreateButton`. -/
def enableCreateButton (s : Dialog) : Dialog :=
  if s.checkedAvailablity then { s with createAssetButton := true } else s

/-- The method `GetSpecialCharacter`. -/
def GetSpecialCharacter (env : Env) (s : Dialog) : String :=
  if s.type = env.SUB then "/"
  else if s.type = env.UNIQUE then "#"
  else ""

/-- The method `GetAssetName`. -/
def GetAssetName (env : Env) (s : Dialog) : String :=
  if s.type = env.ROOT then s.nameText
  else if s.type = env.SUB then s.assetList ++ "/" ++ s.nameText
  else if s.type = env.UNIQUE then s.assetList ++ "#" ++ s.nameText
  else ""

/-- The method `checkIPFSHash`: the returned flag and the dialog it leaves. -/
def checkIPFSHash (env : Env) (s : Dialog) (hash : String) : Bool × Dialog :=
  let ok : Bool × Dialog := (true, { hideMessage s with ipfsTextStyle := "" })
  if !qIsEmpty hash then
    if !env.CheckEncodedIPFS hash then
      (false, disableCreateButton
        (showMessage { s with ipfsTextStyle := "border: 2px solid red" }
          "IPFS Hash must start with 'Qm'"))
    else if qsize hash != 46 then
      (false, disableCreateButton
        (showMessage { s with ipfsTextStyle := "border: 2px solid red" }
          "IPFS Hash must have size of 46 characters"))
    else if (env.DecodeIPFS hash).isEmpty then
      (false, disableCreateButton
        (showMessage s "IPFS hash is not valid. Please use a valid IPFS hash"))
    else ok
  else ok

/-- The method `CheckFormState`. -/
def CheckFormState (env : Env) (s0 : Dialog) : Dialog :=
  let s := { s0 with formChecks := s0.formChecks + 1 }
  let s := hideMessage (disableCreateButton s)
  let dest := env.DecodeDestination s.addressText
  let name := GetAssetName env s
  let r := env.IsTypeCheckNameValid (AssetTypeFromInt s.type) name
  let assetNameValid := r.1
  let error := r.2
  if !assetNameValid && qsize name != 0 then
    { showMessage { s with nameTextStyle := "border: 1px solid red" } error with
      availabilityButton := false }
  else if !(env.IsValidDestination dest || qIsEmpty s.addressText) && assetNameValid then
    showMessage { s with addressTextStyle := "border: 1px solid red" }
      "Warning: Invalid Astral address"
  else
    let r := if s.ipfsBox then checkIPFSHash env s s.ipfsText else (true, s)
    if !r.1 then r.2
    else
      let s := r.2
      if s.checkedAvailablity then
        { enableCreateButton (showValidMessage s "Valid Asset") with
          availabilityButton := false }
      else
        { disableCreateButton s with availabilityButton := true }

/-- The method `toggleIPFSText`. -/
def toggleIPFSText (env : Env) (s : Dialog) : Dialog :=
  let s := if s.ipfsBox then { s with ipfsTextVisible := true }
           else { s with ipfsTextVisible := false, ipfsText := "" }
  CheckFormState env s

/-- The slot `ipfsStateChanged`. -/
def ipfsStateChanged (env : Env) (s : Dialog) : Dialog := toggleIPFSText env s

/-- The slot `checkAvailabilityClicked`. -/
def checkAvailabilityClicked (env : Env) (s : Dialog) : Dialog :=
  let name := GetAssetName env s
  match env.passets with
  | some GetAssetMetaDataIfExists =>
    if GetAssetMetaDataIfExists name then
      { disableCreateButton
          (showMessage { s with nameTextStyle := "border: 1px solid red" }
            "Invalid: Asset name already in use") with
        checkedAvailablity := false, lastAvailable := none }
    else
      CheckFormState env
        { s with checkedAvailablity := true, nameTextStyle := "border: 1px solid green",
                 lastAvailable := some name }
  | none =>
    disableCreateButton
      (showMessage { s with checkedAvailablity := false, lastAvailable := none }
        "Error: Asset Database not in sync")

/-- The method `updatePresentedAssetName`. -/
def updatePresentedAssetName (s : Dialog) (name : String) : Dialog :=
  { s with assetFullName := name }

/-- The member `format`, `"%1<font color=green>%2%3</font>"`, with its three
places filled by `QString::arg`. -/
def formatArg (a1 a2 a3 : String) : String :=
  a1 ++ "<font color=green>" ++ a2 ++ a3 ++ "</font>"

/-- The method `UpdateAssetNameToUpper`. -/
def UpdateAssetNameToUpper (env : Env) (s : Dialog) : Dialog :=
  if s.type = env.ROOT ∨ s.type = env.SUB then
    { s with nameText := env.toUpper s.nameText }
  else s

/-- The method `UpdateAssetNameMaxSize`. -/
def UpdateAssetNameMaxSize (env : Env) (s : Dialog) : Dialog :=
  if s.type = env.ROOT then { s with nameTextMaxLength := 30 }
  else if s.type = env.SUB ∨ s.type = env.UNIQUE then
    { s with nameTextMaxLength := 30 - ((qsize s.assetList : Int) + 1) }
  else s

/-- The name check both branches of `onNameChanged` make on the full name. -/
def nameChangedCheck (env : Env) (s : Dialog) (assetType : Int) : Dialog :=
  let r := env.IsTypeCheckNameValid assetType (GetAssetName env s)
  if r.1 then { hideMessage s with availabilityButton := true }
  else { showMessage { s with nameTextStyle := "border: 1px solid red" } r.2 with
         availabilityButton := false }

/-- The slot `onNameChanged`. -/
def onNameChanged (env : Env) (s0 : Dialog) (name0 : String) : Dialog :=
  let name := if s0.type = env.UNIQUE then name0 else env.toUpper name0
  let s := UpdateAssetNameToUpper env s0
  let identifier := GetSpecialCharacter env s
  let finish (s : Dialog) : Dialog :=
    let s := updatePresentedAssetName s
      (formatArg (if s.type = env.ROOT then "" else s.assetList) identifier name)
    disableCreateButton { s with checkedAvailablity := false }
  if qsize name = 0 then
    updatePresentedAssetName { hideMessage s with availabilityButton := false } name
  else if s.type = env.ROOT then
    finish (nameChangedCheck env s env.ROOT)
  else if s.type = env.SUB ∨ s.type = env.UNIQUE then
    if qsize name = 0 then
      { hideMessage s with availabilityButton := false }
    else
      finish (nameChangedCheck env s (AssetTypeFromInt s.type))
  else
    finish s

/-- The slot `onAddressNameChanged`. -/
def onAddressNameChanged (env : Env) (s : Dialog) (_address : String) : Dialog :=
  CheckFormState env s

/-- The slot `onIPFSHashChanged`. -/
def onIPFSHashChanged (env : Env) (s : Dialog) (hash : String) : Dialog :=
  let r := checkIPFSHash env s hash
  if r.1 then CheckFormState env r.2 else r.2

/-- The method `updateCoinControlState`. -/
def updateCoinControlState (env : Env) (s : Dialog) (ctrl : CCoinControl) : CCoinControl :=
  let ctrl := if s.radioCustomFee then { ctrl with m_feerate := some s.customFee }
              else { ctrl with m_feerate := none }
  { ctrl with m_confirm_target := some (env.getConfTargetForIndex s.confTargetSelector) }

/-- The slot `coinControlUpdateLabels`. -/
def coinControlUpdateLabels (env : Env) (s : Dialog) : Dialog :=
  match env.model with
  | none => s
  | some model =>
    match model.optionsModel with
    | none => s
    | some _ =>
      let s := { s with coinControl := updateCoinControlState env s s.coinControl }
      let s := { s with payAmounts := [], fSubtractFeeFromAmount := false }
      let s := { s with payAmounts := s.payAmounts ++ [env.GetBurnAmount s.type] }
      if s.coinControl.HasSelected then
        { s with labelCoinControlInsuffFunds := env.insufficientFunds s.coinControl s.payAmounts,
                 labelCoinControlAutomaticallySelected := false,
                 widgetCoinControl := true }
      else
        { s with labelCoinControlAutomaticallySelected := true,
                 widgetCoinControl := false,
                 labelCoinControlInsuffFunds := false }

/-- The method `setUniqueSelected`. -/
def setUniqueSelected (s : Dialog) : Dialog :=
  { s with reissuableBox := false, quantitySpinBox := 1, unitBox := 0,
           reissuableBoxEnabled := false, unitBoxEnabled := false,
           quantitySpinBoxEnabled := false }

/-- The method `clearSelected`. -/
def clearSelected (s : Dialog) : Dialog :=
  { s with reissuableBoxEnabled := true, unitBoxEnabled := true,
           quantitySpinBoxEnabled := true, reissuableBox := true, unitBox := 0 }

/-- The slot `onAssetTypeActivated`. -/
def onAssetTypeActivated (env : Env) (s : Dialog) (index : Int) : Dialog :=
  let s := { s with type := index }
  let s := if !(s.type = env.ROOT || s.type = env.SUB || s.type = env.UNIQUE) then
             { s with type := env.ROOT } else s
  let s := if s.type = env.UNIQUE then setUniqueSelected s else clearSelected s
  let identifier := GetSpecialCharacter env s
  let s := if index ≠ 0 then { s with assetListVisible := true }
           else { s with assetListVisible := false }
  let s := UpdateAssetNameMaxSize env s
  let s := updatePresentedAssetName s
    (formatArg (if s.type = env.ROOT then "" else s.assetList) identifier s.nameText)
  let s := if qsize s.nameText ≠ 0 then { s with availabilityButton := true }
           else { s with availabilityButton := false }
  let s := { s with createAssetButton := false }
  coinControlUpdateLabels env s

/-- The slot `onAssetListActivated`. -/
def onAssetListActivated (env : Env) (s : Dialog) (_index : Int) : Dialog :=
  let identifier := GetSpecialCharacter env s
  let s := UpdateAssetNameMaxSize env s
  let s := updatePresentedAssetName s
    (formatArg (if s.type = env.ROOT then "" else s.assetList) identifier s.nameText)
  let s := if qsize s.nameText ≠ 0 then { s with availabilityButton := true }
           else { s with availabilityButton := false }
  { s with createAssetButton := false }

/-- The slot `coinControlChangeEdited`; `btnRetVal` is the button the user
presses if the confirmation question is asked. -/
def coinControlChangeEdited (env : Env) (s : Dialog) (text : String) (btnRetVal : Int) :
    Dialog :=
  match env.model with
  | none => s
  | some model =>
    match model.addressTableModel with
    | none => s
    | some addressTable =>
      let s := { s with coinControl :=
                   { s.coinControl with destChange := CTxDestination.CNoDestination } }
      let s := { s with labelCoinControlChangeLabelStyle := "QLabel\x7bcolor:red;\x7d" }
      let dest := env.DecodeDestination text
      if qIsEmpty text then
        { s with labelCoinControlChangeLabel := "" }
      else if !env.IsValidDestination dest then
        { s with labelCoinControlChangeLabel := "Warning: Invalid Astral address" }
      else if !model.IsSpendable dest then
        let s := { s with labelCoinControlChangeLabel := "Warning: Unknown change address" }
        if btnRetVal = QMessageBox.Yes then
          { s with coinControl := { s.coinControl with destChange := dest } }
        else
          { s with lineEditCoinControlChange := "",
                   labelCoinControlChangeLabelStyle := "QLabel\x7bcolor:black;\x7d",
                   labelCoinControlChangeLabel := "" }
      else
        let s := { s with labelCoinControlChangeLabelStyle := "QLabel\x7bcolor:black;\x7d" }
        let associatedLabel := addressTable.labelForAddress text
        let s := if !qIsEmpty associatedLabel then
                   { s with labelCoinControlChangeLabel := associatedLabel }
                 else { s with labelCoinControlChangeLabel := "(no label)" }
        { s with coinControl := { s.coinControl with destChange := dest } }

/-- The slot `coinControlChangeChecked`; `Qt::Unchecked` is 0 and
`Qt::Checked` is 2. -/
def coinControlChangeChecked (env : Env) (s : Dialog) (state : Int) (btnRetVal : Int) :
    Dialog :=
  let s := if state = 0 then
             { s with coinControl :=
                        { s.coinControl with destChange := CTxDestination.CNoDestination },
                      labelCoinControlChangeLabel := "" }
           else coinControlChangeEdited env s s.lineEditCoinControlChange btnRetVal
  { s with lineEditCoinControlChangeEnabled := (state == 2) }

/-- The asset `onCreateAssetClicked` constructs from the form. -/
def newAssetOfForm (env : Env) (s : Dialog) : CNewAsset :=
  let name := GetAssetName env s
  let quantity := env.quantityAmount s.quantitySpinBox
  let units := s.unitBox
  let reissuable := s.reissuableBox
  let hasIPFS := s.ipfsBox && !qIsEmpty s.ipfsText
  let ipfsDecoded := if hasIPFS then env.DecodeIPFS s.ipfsText else ""
  { strName := name, nAmount := quantity, units := units,
    nReissuable := if reissuable then 1 else 0,
    nHasIPFS := if hasIPFS then 1 else 0,
    strIPFSHash := ipfsDecoded }

/-- What the confirmation dialog of `onCreateAssetClicked` presents. -/
structure Confirmation where
  burnAmount : Int
  burnAddress : String
  assetAmount : Int
  assetUnits : Int
  assetName : String
  assetAddress : String
  /-- The fee line, present when the fee is positive. -/
  feeLine : Option Int
  totalAmount : Int
  deriving DecidableEq

/-- What `onCreateAssetClicked` does outside the dialog, in order. -/
inductive Effect where
  | addRow
  | CreateAssetTransaction (ctrl : CCoinControl) (asset : CNewAsset) (address : String)
  | confirmationDialog (c : Confirmation)
  | SendAssetTransaction (tx : Nat)
  | msgBox (txid : String)
  | close
  deriving DecidableEq

/-- The address `onCreateAssetClicked` issues the asset to, with what
obtaining it does: a new receiving address of the wallet when the address
field is empty, the text of the field otherwise; `none` when the address
table is needed and null. -/
def receiveAddress (model : WalletModel) (s : Dialog) : Option (String × List Effect) :=
  if qIsEmpty s.addressText then
    model.addressTableModel.map (fun t => (t.addRow, [Effect.addRow]))
  else some (s.addressText, [])

/-- The coin control `onCreateAssetClicked` hands to `CreateAssetTransaction`. -/
def createControl (env : Env) (options : OptionsModel) (s : Dialog) : CCoinControl :=
  let ctrl := if options.coinControlFeatures then s.coinControl else CCoinControl.null
  updateCoinControlState env s ctrl

/-- The confirmation message `onCreateAssetClicked` formats once the
transaction has been created with fee `nFeeRequired`. -/
def confirmationOf (env : Env) (s : Dialog) (asset : CNewAsset) (address : String)
    (nFeeRequired : Int) : Confirmation :=
  let totalAmount := wrapInt64 (env.GetBurnAmount s.type + nFeeRequired)
  { burnAmount := env.GetBurnAmount s.type,
    burnAddress := env.GetBurnAddress s.type,
    assetAmount := asset.nAmount, assetUnits := asset.units,
    assetName := asset.strName, assetAddress := address,
    feeLine := if nFeeRequired > 0 then some nFeeRequired else none,
    totalAmount := totalAmount }

/-- The slot `onCreateAssetClicked`: `retval` is the result of the
confirmation dialog and `okClicked` tells whether the final message box is
left by its Ok button, should either be shown.  The result is `none` when a
null model is dereferenced. -/
def onCreateAssetClicked (env : Env) (s : Dialog) (retval : Int) (okClicked : Bool) :
    Option (Dialog × List Effect) :=
  match env.model with
  | none => none
  | some model =>
    match receiveAddress model s with
    | none => none
    | some (address, log) =>
      let asset := newAssetOfForm env s
      match model.optionsModel with
      | none => none
      | some options =>
        let ctrl := createControl env options s
        let log := log ++ [Effect.CreateAssetTransaction ctrl asset address]
        match env.CreateAssetTransaction ctrl asset address with
        | Except.error error => some (showMessage s ("Invalid: " ++ error), log)
        | Except.ok (tx, nFeeRequired) =>
          let c := confirmationOf env s asset address nFeeRequired
          let log := log ++ [Effect.confirmationDialog c]
          if retval ≠ QMessageBox.Yes then some (s, log)
          else
            let log := log ++ [Effect.SendAssetTransaction tx]
            match env.SendAssetTransaction tx with
            | Except.error error => some (showMessage s ("Invalid: " ++ error), log)
            | Except.ok txid =>
              some (s, log ++ [Effect.msgBox txid] ++ (if okClicked then [Effect.close] else []))

/-- The items `setUpValues` adds to the combo box `assetList`. -/
def assetListItems (names : List String) : List String :=
  (names.map (fun item => String.mk (item.data.takeWhile (fun c => c != '!')))).filter
    (fun name => name.utf8ByteSize != 30)

/-- The method `setUpValues`; `none` when a null model is dereferenced. -/
def setUpValues (env : Env) (s : Dialog) : Option Dialog :=
  let s := { s with unitBox := 0, reissuableBox := true, ipfsTextVisible := false,
                    availabilityButton := false }
  let s := CheckFormState env (hideMessage s)
  match env.model with
  | none => none
  | some model =>
    match model.optionsModel with
    | none => none
    | some _ =>
      some { s with type := env.ROOT, assetListVisible := false,
                    assetList := (assetListItems model.administrativeAssets).headD "" }

/-- The dialog before `setUpValues` runs: every widget as Qt constructs it,
the two members at their defaults `ROOT` and `false`. -/
def blankDialog (env : Env) : Dialog :=
  { type := env.ROOT, checkedAvailablity := false,
    nameText := "", nameTextStyle := "", nameTextMaxLength := 32767,
    addressText := "", addressTextStyle := "",
    ipfsBox := false, ipfsText := "", ipfsTextStyle := "", ipfsTextVisible := true,
    assetList := "", assetListVisible := true, assetFullName := "",
    messageLabel := "", messageLabelStyle := "", messageLabelVisible := true,
    createAssetButton := true, availabilityButton := true,
    quantitySpinBox := 0, quantitySpinBoxEnabled := true,
    unitBox := 0, unitBoxEnabled := true,
    reissuableBox := false, reissuableBoxEnabled := true,
    radioCustomFee := false, customFee := 0, confTargetSelector := 0,
    lineEditCoinControlChange := "", lineEditCoinControlChangeEnabled := true,
    labelCoinControlChangeLabel := "", labelCoinControlChangeLabelStyle := "",
    labelCoinControlAutomaticallySelected := true, widgetCoinControl := true,
    labelCoinControlInsuffFunds := true,
    coinControl := CCoinControl.null, payAmounts := [], fSubtractFeeFromAmount := false,
    formChecks := 0, lastAvailable := none }

/-! ## The fee section -/

/-- What the dialog reads of a call `GetMinimumFee(1000, coin_control, ...)`:
the fee, whether the reason of the fee calculation is `FeeReason::FALLBACK`,
and the returned target. -/
structure FeeEstimate where
  fee : Int
  fallback : Bool
  returnedTarget : Int
  deriving DecidableEq

/-- The collaborators of the fee labels: the fee estimator and the two
formatters of label texts. -/
structure FeeEnv where
  GetMinimumFee : Int → CCoinControl → FeeEstimate
  /-- The formatter `AstralUnits::formatWithUnit`. -/
  formatWithUnit : Int → Int → String
  /-- The translated text `Estimated to begin confirmation within %n block(s).` -/
  estimationText : Int → String

/-- What `updateSmartFeeLabel` does: the coin control it hands to
`GetMinimumFee` and the labels it writes (texts, and visibility of the two
labels it shows or hides). -/
structure SmartFeeUpdate where
  coin_control : CCoinControl
  labelSmartFee : String
  labelSmartFee2 : Bool
  labelFeeEstimation : String
  fallbackFeeWarningLabel : Bool
  labelFeeMinimized : String
  deriving DecidableEq

/-- The method `updateSmartFeeLabel`, ending with its call of
`updateFeeMinimizedLabel`; `radioSmartFee` is the state of the radio button
of that name.  The result is `none` when the method returns at once for want
of a model.  The colour and indent of the fallback warning are left out. -/
def updateSmartFeeLabel (env : Env) (fees : FeeEnv) (s : Dialog) (radioSmartFee : Bool) :
    Option SmartFeeUpdate :=
  match env.model with
  | none => none
  | some model =>
    match model.optionsModel with
    | none => none
    | some options =>
      let coin_control := CCoinControl.null
      let coin_control := updateCoinControlState env s coin_control
      let coin_control := { coin_control with m_feerate := none }
      let feeCalc := fees.GetMinimumFee 1000 coin_control
      let labelSmartFee := fees.formatWithUnit options.displayUnit feeCalc.fee ++ "/kB"
      let labelFeeMinimized :=
        if radioSmartFee then labelSmartFee
        else fees.formatWithUnit options.displayUnit s.customFee ++ "/kB"
      if feeCalc.fallback then
        some { coin_control := coin_control, labelSmartFee := labelSmartFee,
               labelSmartFee2 := true, labelFeeEstimation := "",
               fallbackFeeWarningLabel := true, labelFeeMinimized := labelFeeMinimized }
      else
        some { coin_control := coin_control, labelSmartFee := labelSmartFee,
               labelSmartFee2 := false,
               labelFeeEstimation := fees.estimationText feeCalc.returnedTarget,
               fallbackFeeWarningLabel := false, labelFeeMinimized := labelFeeMinimized }

/-- A stored setting, as far as the dialog converts it. -/
structure QVariant where
  toInt : Int
  toLongLong : Int
  toBool : Bool
  deriving DecidableEq

/-- The variant of an integer. -/
def QVariant.ofInt (n : Int) : QVariant :=
  { toInt := n, toLongLong := n, toBool := n != 0 }

/-- The variant of a truth value. -/
def QVariant.ofBool (b : Bool) : QVariant :=
  { toInt := if b then 1 else 0, toLongLong := if b then 1 else 0, toBool := b }

/-- The invalid variant, which `value` returns for a key that is not stored. -/
def QVariant.invalid : QVariant := { toInt := 0, toLongLong := 0, toBool := false }

/-- The settings store of the application: the value stored under each key,
if any. -/
def QSettings := String → Option QVariant

/-- The test `QSettings::contains`. -/
def QSettings.contains (q : QSettings) (key : String) : Bool := (q key).isSome

/-- The lookup `QSettings::value`. -/
def QSettings.value (q : QSettings) (key : String) : QVariant :=
  (q key).getD QVariant.invalid

/-- The update `QSettings::setValue`. -/
def QSettings.setValue (q : QSettings) (key : String) (v : QVariant) : QSettings :=
  fun k => if k = key then some v else q k

/-- What the constructor leaves of the fee section: the settings, the id of
the button of `groupFee` it checks (0 is `radioSmartFee`, 1 is
`radioCustomFee`), the custom fee, the minimum-fee box and the member
`fFeeMinimized`. -/
structure FeeSection where
  settings : QSettings
  checkedId : Int
  customFee : Int
  checkBoxMinimumFee : Bool
  fFeeMinimized : Bool

/-- The part `init transaction fee section` of the constructor;
`DEFAULT_TRANSACTION_FEE` is the constant of that name. -/
def initFeeSection (DEFAULT_TRANSACTION_FEE : Int) (settings : QSettings) : FeeSection :=
  let settings :=
    if !settings.contains "fFeeSectionMinimized" then
      settings.setValue "fFeeSectionMinimized" (QVariant.ofBool true)
    else settings
  let settings :=
    if !settings.contains "nFeeRadio" && settings.contains "nTransactionFee" &&
        decide ((settings.value "nTransactionFee").toLongLong > 0) then
      settings.setValue "nFeeRadio" (QVariant.ofInt 1)
    else settings
  let settings :=
    if !settings.contains "nFeeRadio" then settings.setValue "nFeeRadio" (QVariant.ofInt 0)
    else settings
  let settings :=
    if !settings.contains "nSmartFeeSliderPosition" then
      settings.setValue "nSmartFeeSliderPosition" (QVariant.ofInt 0)
    else settings
  let settings :=
    if !settings.contains "nTransactionFee" then
      settings.setValue "nTransactionFee" (QVariant.ofInt DEFAULT_TRANSACTION_FEE)
    else settings
  let settings :=
    if !settings.contains "fPayOnlyMinFee" then
      settings.setValue "fPayOnlyMinFee" (QVariant.ofBool false)
    else settings
  { settings := settings,
    checkedId := max 0 (min 1 (settings.value "nFeeRadio").toInt),
    customFee := (settings.value "nTransactionFee").toLongLong,
    checkBoxMinimumFee := (settings.value "fPayOnlyMinFee").toBool,
    fFeeMinimized := (settings.value "fFeeSectionMinimized").toBool }

/-! ## The dialog as a state machine -/

/-- A user action on the form: the widget takes its new value, then the slot
connected to the signal runs. -/
inductive Event where
  /-- The name field now reads `text`. -/
  | nameEdited (text : String)
  /-- Entry `index` of the type box is chosen. -/
  | assetTypeActivated (index : Int)
  /-- Entry `index` of the parent list, reading `text`, is chosen. -/
  | assetListActivated (index : Int) (text : String)
  /-- The address field now reads `text`. -/
  | addressEdited (text : String)
  /-- The IPFS field now reads `text`. -/
  | ipfsEdited (text : String)
  /-- The IPFS check box is clicked. -/
  | ipfsBoxClicked
  /-- The availability button is clicked. -/
  | availabilityClicked
  deriving DecidableEq

/-- One step of the dialog. -/
def step (env : Env) (s : Dialog) : Event → Dialog
  | Event.nameEdited text => onNameChanged env { s with nameText := text } text
  | Event.assetTypeActivated index => onAssetTypeActivated env s index
  | Event.assetListActivated index text =>
      onAssetListActivated env { s with assetList := text } index
  | Event.addressEdited text => onAddressNameChanged env { s with addressText := text } text
  | Event.ipfsEdited text => onIPFSHashChanged env { s with ipfsText := text } text
  | Event.ipfsBoxClicked => ipfsStateChanged env { s with ipfsBox := !s.ipfsBox }
  | Event.availabilityClicked => checkAvailabilityClicked env s

/-- The dialog after a sequence of user actions. -/
def run (env : Env) (s : Dialog) (events : List Event) : Dialog :=
  events.foldl (step env) s

/-! ## A concrete environment

Collaborators small enough to evaluate, used to run the model on concrete
forms.  The enumerators follow the order of the type box (main, sub, unique);
a name is built from upper-case letters, digits, dots and underscores, a main
name has 3 to 30 of them, a sub or unique name is a main name, the separator
and a non-empty tail; the asset index holds the single name `TAKEN`. -/

/-- The characters of an asset name. -/
def sampleNameChar (c : Char) : Bool :=
  (65 ≤ c.toNat && c.toNat ≤ 90) || (48 ≤ c.toNat && c.toNat ≤ 57) || c.toNat == 46 ||
    c.toNat == 95

/-- A main name: 3 to 30 name characters. -/
def sampleRootName (cs : List Char) : Bool :=
  3 ≤ cs.length && cs.length ≤ 30 && cs.all sampleNameChar

/-- A main name, the separator `sep` and a non-empty tail of name characters. -/
def sampleChildName (sep : Char) (cs : List Char) : Bool :=
  match cs.span (fun c => c != sep) with
  | (parent, _ :: child) =>
      sampleRootName parent && !child.isEmpty && child.all sampleNameChar &&
        cs.length ≤ 30
  | (_, []) => false

/-- The name grammar of the concrete environment. -/
def sampleNameValid (t : Int) (name : String) : Bool × String :=
  let ok : Bool :=
    if t = 0 then sampleRootName name.data
    else if t = 1 then sampleChildName '/' name.data
    else if t = 2 then sampleChildName '#' name.data
    else false
  if ok then (true, "") else (false, "Invalid asset name")

/-- The wallet of the concrete environment: it owns the administrative asset
`FOO!` and spends to key hash 1 only. -/
def sampleWallet : WalletModel :=
  { optionsModel := some { displayUnit := 0, coinControlFeatures := true },
    addressTableModel := some { addRow := "Afresh", labelForAddress := fun _ => "" },
    IsSpendable := fun d => d == CTxDestination.CKeyID 1,
    administrativeAssets := ["FOO!"] }

/-- The concrete environment. -/
def sampleEnv : Env :=
  { ROOT := 0, SUB := 1, UNIQUE := 2,
    IsTypeCheckNameValid := sampleNameValid,
    passets := some (fun name => name == "TAKEN"),
    DecodeDestination := fun text =>
      if text = "Amine" then CTxDestination.CKeyID 1
      else if text = "Aother" then CTxDestination.CKeyID 2
      else CTxDestination.CNoDestination,
    IsValidDestination := fun d => d != CTxDestination.CNoDestination,
    CheckEncodedIPFS := fun hash => hash.data.take 2 == ['Q', 'm'],
    DecodeIPFS := fun hash =>
      if hash.data.take 2 == ['Q', 'm'] then String.mk (hash.data.drop 2) else "",
    GetBurnAmount := fun t =>
      if t = 0 then 50000000000 else if t = 1 then 10000000000
      else if t = 2 then 500000000 else 0,
    GetBurnAddress := fun t => if t = 0 then "AburnRoot" else "AburnOther",
    getConfTargetForIndex := fun i => [2, 4, 6, 12, 24, 48, 144, 504, 1008].getD i.toNat 1008,
    quantityAmount := fun q => q * 100000000,
    model := some sampleWallet,
    CreateAssetTransaction := fun _ asset _ =>
      if asset.strName = "" then Except.error "Invalid asset name"
      else Except.ok (7, 1000),
    SendAssetTransaction := fun _ => Except.ok "txid7",
    insufficientFunds := fun _ _ => false,
    toUpper := fun text => String.mk (text.data.map Char.toUpper) }

/-- A filled-in form of the concrete environment: main asset `ABC`, found
available, to be issued to a new address. -/
def sampleForm : Dialog :=
  { blankDialog sampleEnv with nameText := "ABC", checkedAvailablity := true,
                               createAssetButton := true, quantitySpinBox := 10,
                               reissuableBox := true }

/-- The fee collaborators of the concrete environment: the estimator answers
with the fee rate of the coin control it is given, and with 1000 per kB when
it is given none. -/
def sampleFees : FeeEnv :=
  { GetMinimumFee := fun _ ctrl =>
      { fee := ctrl.m_feerate.getD 1000, fallback := false,
        returnedTarget := ctrl.m_confirm_target.getD 6 },
    formatWithUnit := fun _ amount =>
      if amount = 1000 then "0.00001000 ASTRAL"
      else if amount = 2000 then "0.00002000 ASTRAL"
      else "ASTRAL",
    estimationText := fun _ => "Estimated to begin confirmation within a few blocks." }

/-- Stored settings of an earlier version: a transaction fee of 2000 and no
radio choice. -/
def sampleSettings : QSettings :=
  fun key => if key = "nTransactionFee" then some (QVariant.ofInt 2000) else none

/-! ## Auxiliary facts -/

theorem qunits_pos (c : Char) : 0 < qunits c := by
  unfold qunits; split <;> decide

theorem qsize_eq_zero_iff (s : String) : qsize s = 0 ↔ s = "" := by
  rcases s with ⟨cs⟩
  cases cs with
  | nil => simp [qsize]
  | cons c cs =>
    have h := qunits_pos c
    constructor
    · intro h0
      simp only [qsize, List.map_cons, List.sum_cons] at h0
      omega
    · intro h0
      exact absurd (congrArg String.data h0) (by simp)

theorem qIsEmpty_iff (s : String) : qIsEmpty s = true ↔ s = "" := by
  simp [qIsEmpty, qsize_eq_zero_iff]

theorem qIsEmpty_false_iff (s : String) : qIsEmpty s = false ↔ s ≠ "" := by
  have h := qIsEmpty_iff s
  cases hq : qIsEmpty s <;> simp [hq] at h ⊢ <;> exact h

theorem wrapInt64_of_range (x : Int) (h1 : -(2 ^ 63) ≤ x) (h2 : x < 2 ^ 63) :
    wrapInt64 x = x := by
  unfold wrapInt64
  rw [Int.emod_eq_of_lt (by omega) (by omega)]
  omega

/-- The fields `GetAssetName` reads are left alone by `checkIPFSHash`. -/
theorem checkIPFSHash_frame (env : Env) (s : Dialog) (hash : String) :
    (checkIPFSHash env s hash).2.type = s.type ∧
    (checkIPFSHash env s hash).2.nameText = s.nameText ∧
    (checkIPFSHash env s hash).2.assetList = s.assetList ∧
    (checkIPFSHash env s hash).2.checkedAvailablity = s.checkedAvailablity := by
  unfold checkIPFSHash
  simp only [hideMessage, showMessage, disableCreateButton]
  split_ifs <;> simp

/-- The fields `GetAssetName` reads are left alone by `CheckFormState`. -/
theorem CheckFormState_frame (env : Env) (s : Dialog) :
    (CheckFormState env s).type = s.type ∧
    (CheckFormState env s).nameText = s.nameText ∧
    (CheckFormState env s).assetList = s.assetList ∧
    (CheckFormState env s).checkedAvailablity = s.checkedAvailablity := by
  unfold CheckFormState
  simp only [hideMessage, showMessage, showValidMessage, disableCreateButton,
    enableCreateButton]
  split_ifs <;> simp [checkIPFSHash_frame]

theorem GetAssetName_congr (env : Env) (s t : Dialog) (h1 : t.type = s.type)
    (h2 : t.nameText = s.nameText) (h3 : t.assetList = s.assetList) :
    GetAssetName env t = GetAssetName env s := by
  simp [GetAssetName, h1, h2, h3]

/-! ## C1: the create button and the name last found available -/

/-- C1, evaluated on the code: from the constructed dialog (flag false, create
button disabled) two runs reach a state whose create button is enabled while
`GetAssetName` is not the name the last `checkAvailabilityClicked` found free.
In the first the name `ABC` is checked and then deleted in one edit: the early
return of `onNameChanged` keeps the flag and the button.  In the second the
type is switched to sub asset after the check: `onAssetTypeActivated` keeps the
flag, and the next `CheckFormState` enables the button for `FOO/ABC`. -/
theorem create_button_enabled_for_unchecked_name :
    (setUpValues sampleEnv (blankDialog sampleEnv)).map
      (fun s0 =>
        let a := run sampleEnv s0
          [Event.nameEdited "ABC", Event.availabilityClicked, Event.nameEdited ""]
        let b := run sampleEnv s0
          [Event.nameEdited "ABC", Event.availabilityClicked,
           Event.assetTypeActivated 1, Event.ipfsBoxClicked]
        ((s0.checkedAvailablity, s0.createAssetButton),
         (a.createAssetButton, GetAssetName sampleEnv a, a.lastAvailable),
         (b.createAssetButton, GetAssetName sampleEnv b, b.lastAvailable)))
      = some ((false, false), (true, "", some "ABC"), (true, "FOO/ABC", some "ABC")) := by
  decide

/-! ## C2: the availability check -/

/-- C2: after `checkAvailabilityClicked` the flag `checkedAvailablity` is true
exactly when the asset index is present and holds no asset under
`GetAssetName`; when the index is absent or the name exists, the flag is
false, the create button is disabled, an error message is shown and
`CheckFormState` has not been entered. -/
theorem checkAvailabilityClicked_flag (env : Env) (s : Dialog) :
    ((checkAvailabilityClicked env s).checkedAvailablity = true ↔
      ∃ f, env.passets = some f ∧ f (GetAssetName env s) = false) ∧
    ((env.passets = none ∨ ∃ f, env.passets = some f ∧ f (GetAssetName env s) = true) →
      (checkAvailabilityClicked env s).checkedAvailablity = false ∧
      (checkAvailabilityClicked env s).createAssetButton = false ∧
      (checkAvailabilityClicked env s).messageLabelVisible = true ∧
      (checkAvailabilityClicked env s).messageLabelStyle =
        "color: red; font-size: 15pt;font-weight: bold;" ∧
      ((checkAvailabilityClicked env s).messageLabel = "Invalid: Asset name already in use" ∨
       (checkAvailabilityClicked env s).messageLabel = "Error: Asset Database not in sync") ∧
      (checkAvailabilityClicked env s).formChecks = s.formChecks) := by
  unfold checkAvailabilityClicked
  cases hp : env.passets with
  | none => simp [showMessage, disableCreateButton]
  | some f =>
    cases hf : f (GetAssetName env s) with
    | true => simp [hf, showMessage, disableCreateButton]
    | false => simp [hf, (CheckFormState_frame env _).2.2.2]

/-- C2 at a taken name: with the name field reading `TAKEN` the check clears
the flag, disables the button and shows the message without a form check. -/
theorem checkAvailabilityClicked_flag_witness :
    (checkAvailabilityClicked sampleEnv
        { blankDialog sampleEnv with nameText := "TAKEN" }).checkedAvailablity = false ∧
    (checkAvailabilityClicked sampleEnv
        { blankDialog sampleEnv with nameText := "TAKEN" }).createAssetButton = false ∧
    (checkAvailabilityClicked sampleEnv
        { blankDialog sampleEnv with nameText := "TAKEN" }).messageLabelVisible = true ∧
    (checkAvailabilityClicked sampleEnv
        { blankDialog sampleEnv with nameText := "TAKEN" }).messageLabelStyle =
        "color: red; font-size: 15pt;font-weight: bold;" ∧
    ((checkAvailabilityClicked sampleEnv
        { blankDialog sampleEnv with nameText := "TAKEN" }).messageLabel =
          "Invalid: Asset name already in use" ∨
     (checkAvailabilityClicked sampleEnv
        { blankDialog sampleEnv with nameText := "TAKEN" }).messageLabel =
          "Error: Asset Database not in sync") ∧
    (checkAvailabilityClicked sampleEnv
        { blankDialog sampleEnv with nameText := "TAKEN" }).formChecks = 0 :=
  (checkAvailabilityClicked_flag sampleEnv
      { blankDialog sampleEnv with nameText := "TAKEN" }).2
    (Or.inr ⟨fun name => name == "TAKEN", rfl, by decide⟩)

/-! ## C3: the create button and the name grammar -/

/-- C3 as stated fails: with the flag set and the name field empty,
`CheckFormState` enables the create button although the empty full name does
not pass `IsTypeCheckNameValid`.  The constructed dialog gets there by one
click on the availability button. -/
theorem CheckFormState_enables_invalid_empty_name :
    (setUpValues sampleEnv (blankDialog sampleEnv)).map
      (fun s0 =>
        let a := run sampleEnv s0 [Event.availabilityClicked]
        (a.createAssetButton, a.checkedAvailablity, GetAssetName sampleEnv a))
      = some (true, true, "") ∧
    (CheckFormState sampleEnv
        { blankDialog sampleEnv with checkedAvailablity := true }).createAssetButton = true ∧
    GetAssetName sampleEnv
        (CheckFormState sampleEnv
          { blankDialog sampleEnv with checkedAvailablity := true }) = "" ∧
    (sampleEnv.IsTypeCheckNameValid
        (AssetTypeFromInt
          (CheckFormState sampleEnv
            { blankDialog sampleEnv with checkedAvailablity := true }).type)
        (GetAssetName sampleEnv
          (CheckFormState sampleEnv
            { blankDialog sampleEnv with checkedAvailablity := true }))).1 = false := by
  decide

/-- C3, amended: if the create button is enabled when `CheckFormState`
returns, the full name `GetAssetName` is empty or passes
`IsTypeCheckNameValid` for the selected type. -/
theorem CheckFormState_enabled_name (env : Env) (s : Dialog)
    (h : (CheckFormState env s).createAssetButton = true) :
    qsize (GetAssetName env (CheckFormState env s)) = 0 ∨
    (env.IsTypeCheckNameValid (AssetTypeFromInt (CheckFormState env s).type)
      (GetAssetName env (CheckFormState env s))).1 = true := by
  obtain ⟨h1, h2, h3, _⟩ := CheckFormState_frame env s
  rw [GetAssetName_congr env s _ h1 h2 h3, h1]
  by_contra hc
  push_neg at hc
  obtain ⟨hn, hv⟩ := hc
  have hname : GetAssetName env
      (hideMessage (disableCreateButton { s with formChecks := s.formChecks + 1 })) =
      GetAssetName env s := by
    apply GetAssetName_congr <;> simp only [hideMessage, disableCreateButton] <;>
      split_ifs <;> rfl
  have htype : (hideMessage
      (disableCreateButton { s with formChecks := s.formChecks + 1 })).type = s.type := by
    simp only [hideMessage, disableCreateButton]; split_ifs <;> rfl
  have hb : (CheckFormState env s).createAssetButton = false := by
    unfold CheckFormState
    simp only [hname, htype]
    simp [hn, hv, showMessage]
    simp only [hideMessage, disableCreateButton]
    split_ifs <;> rfl
  rw [hb] at h
  exact Bool.noConfusion h

/-- C3, amended, at a checked valid name: after `ABC` has been entered and
found available the button is enabled and `ABC` passes the grammar. -/
theorem CheckFormState_enabled_name_witness :
    (CheckFormState sampleEnv
        { blankDialog sampleEnv with checkedAvailablity := true, nameText := "ABC" }
      ).createAssetButton = true ∧
    (qsize (GetAssetName sampleEnv (CheckFormState sampleEnv
        { blankDialog sampleEnv with checkedAvailablity := true, nameText := "ABC" })) = 0 ∨
     (sampleEnv.IsTypeCheckNameValid
        (AssetTypeFromInt (CheckFormState sampleEnv
          { blankDialog sampleEnv with checkedAvailablity := true, nameText := "ABC" }).type)
        (GetAssetName sampleEnv (CheckFormState sampleEnv
          { blankDialog sampleEnv with checkedAvailablity := true,
                                       nameText := "ABC" }))).1 = true) :=
  ⟨by decide,
   CheckFormState_enabled_name sampleEnv
     { blankDialog sampleEnv with checkedAvailablity := true, nameText := "ABC" } (by decide)⟩

/-! ## C4: when the transaction is sent -/

/-- Obtaining the address does nothing but, at most, add a row. -/
theorem receiveAddress_log (m : WalletModel) (s : Dialog) (address : String)
    (log0 : List Effect) (hr : receiveAddress m s = some (address, log0)) :
    log0 = [] ∨ log0 = [Effect.addRow] := by
  unfold receiveAddress at hr
  split_ifs at hr
  · cases ht : m.addressTableModel with
    | none => simp [ht] at hr
    | some t => simp [ht] at hr; exact Or.inr hr.2.symm
  · simp at hr; exact Or.inl hr.2

/-- C4: `onCreateAssetClicked` returns, and `SendAssetTransaction` is among
its effects exactly when `CreateAssetTransaction` succeeded and the
confirmation dialog returned Yes; when `CreateAssetTransaction` fails the
message `Invalid: ` followed by the error text is shown and neither the
confirmation dialog nor the send takes place; without a Yes nothing is sent. -/
theorem onCreateAssetClicked_send_guard (env : Env) (s : Dialog) (retval : Int)
    (okClicked : Bool) (m : WalletModel) (o : OptionsModel) (address : String)
    (log0 : List Effect) (hm : env.model = some m) (ho : m.optionsModel = some o)
    (hr : receiveAddress m s = some (address, log0)) :
    ∃ s1 log, onCreateAssetClicked env s retval okClicked = some (s1, log) ∧
      (∀ tx, Effect.SendAssetTransaction tx ∈ log ↔
        ((∃ fee, env.CreateAssetTransaction (createControl env o s) (newAssetOfForm env s)
            address = Except.ok (tx, fee)) ∧ retval = QMessageBox.Yes)) ∧
      (∀ e, env.CreateAssetTransaction (createControl env o s) (newAssetOfForm env s)
            address = Except.error e →
        s1.messageLabel = "Invalid: " ++ e ∧ s1.messageLabelVisible = true ∧
        (∀ c, Effect.confirmationDialog c ∉ log) ∧
        (∀ tx, Effect.SendAssetTransaction tx ∉ log)) ∧
      (retval ≠ QMessageBox.Yes → ∀ tx, Effect.SendAssetTransaction tx ∉ log) := by
  have hl := receiveAddress_log m s address log0 hr
  unfold onCreateAssetClicked
  simp only [hm, hr, ho]
  cases hc : env.CreateAssetTransaction (createControl env o s) (newAssetOfForm env s)
      address with
  | error e =>
    refine ⟨_, _, rfl, ?_⟩
    rcases hl with hl | hl <;> simp [hl, showMessage]
  | ok r =>
    obtain ⟨tx, fee⟩ := r
    by_cases hy : retval = QMessageBox.Yes
    · cases hs : env.SendAssetTransaction tx with
      | error e =>
        refine ⟨_, _, by simp only [hy, hs, ne_eq, not_true_eq_false, if_false]; rfl, ?_⟩
        rcases hl with hl | hl <;> simp [hl, hy] <;> intro t <;> exact eq_comm
      | ok txid =>
        refine ⟨_, _, by simp only [hy, hs, ne_eq, not_true_eq_false, if_false]; rfl, ?_⟩
        rcases hl with hl | hl <;> cases okClicked <;> simp [hl, hy] <;> intro t <;>
          exact eq_comm
    · refine ⟨_, _, by simp only [hy, ne_eq, not_false_eq_true, if_true]; rfl, ?_⟩
      rcases hl with hl | hl <;> simp [hl, hy]

/-- C4 on the filled-in form with the answer Yes: the transaction is sent. -/
theorem onCreateAssetClicked_send_guard_witness :
    sampleEnv.model = some sampleWallet ∧
    sampleWallet.optionsModel = some { displayUnit := 0, coinControlFeatures := true } ∧
    receiveAddress sampleWallet sampleForm = some ("Afresh", [Effect.addRow]) ∧
    ∃ s1 log, onCreateAssetClicked sampleEnv sampleForm QMessageBox.Yes true = some (s1, log) ∧
      (∀ tx, Effect.SendAssetTransaction tx ∈ log ↔
        ((∃ fee, sampleEnv.CreateAssetTransaction
            (createControl sampleEnv { displayUnit := 0, coinControlFeatures := true }
              sampleForm)
            (newAssetOfForm sampleEnv sampleForm) "Afresh" = Except.ok (tx, fee)) ∧
          QMessageBox.Yes = QMessageBox.Yes)) ∧
      (∀ e, sampleEnv.CreateAssetTransaction
            (createControl sampleEnv { displayUnit := 0, coinControlFeatures := true }
              sampleForm)
            (newAssetOfForm sampleEnv sampleForm) "Afresh" = Except.error e →
        s1.messageLabel = "Invalid: " ++ e ∧ s1.messageLabelVisible = true ∧
        (∀ c, Effect.confirmationDialog c ∉ log) ∧
        (∀ tx, Effect.SendAssetTransaction tx ∉ log)) ∧
      (QMessageBox.Yes ≠ QMessageBox.Yes → ∀ tx, Effect.SendAssetTransaction tx ∉ log) :=
  ⟨rfl, rfl, by decide,
   onCreateAssetClicked_send_guard sampleEnv sampleForm QMessageBox.Yes true sampleWallet
     { displayUnit := 0, coinControlFeatures := true } "Afresh" [Effect.addRow] rfl rfl
     (by decide)⟩

/-! ## C5: the full asset name -/

/-- C5: `GetAssetName` is the name text for ROOT, parent, `/` and name text
for SUB, parent, `#` and name text for UNIQUE, and empty for every other type
code; in the three supported cases it is the parent (empty for ROOT), then
`GetSpecialCharacter`, then the name text. -/
theorem GetAssetName_cases (env : Env) (s : Dialog) (h : env.distinctCodes) :
    (s.type = env.ROOT → GetAssetName env s = s.nameText) ∧
    (s.type = env.SUB → GetAssetName env s = s.assetList ++ "/" ++ s.nameText) ∧
    (s.type = env.UNIQUE → GetAssetName env s = s.assetList ++ "#" ++ s.nameText) ∧
    (s.type ≠ env.ROOT → s.type ≠ env.SUB → s.type ≠ env.UNIQUE →
      GetAssetName env s = "") ∧
    (s.type = env.ROOT ∨ s.type = env.SUB ∨ s.type = env.UNIQUE →
      GetAssetName env s =
        (if s.type = env.ROOT then "" else s.assetList) ++ GetSpecialCharacter env s ++
          s.nameText) := by
  obtain ⟨h1, h2, h3⟩ := h
  refine ⟨?_, ?_, ?_, ?_, ?_⟩
  · intro ht
    simp [GetAssetName, ht]
  · intro ht
    simp [GetAssetName, ht, Ne.symm h1]
  · intro ht
    simp [GetAssetName, ht, Ne.symm h2, Ne.symm h3]
  · intro hr hs hu
    simp [GetAssetName, hr, hs, hu]
  · rintro (ht | ht | ht)
    · simp [GetAssetName, GetSpecialCharacter, ht, h1, h2]
    · simp [GetAssetName, GetSpecialCharacter, ht, Ne.symm h1]
    · simp [GetAssetName, GetSpecialCharacter, ht, Ne.symm h2, Ne.symm h3]

/-- C5 on a sub-asset form: parent `FOO` and name text `ABC` give `FOO/ABC`. -/
theorem GetAssetName_cases_witness :
    sampleEnv.distinctCodes ∧
    GetAssetName sampleEnv { sampleForm with type := 1, assetList := "FOO" } =
      "FOO" ++ "/" ++ "ABC" :=
  ⟨by decide,
   (GetAssetName_cases sampleEnv { sampleForm with type := 1, assetList := "FOO" }
     (by decide)).2.1 rfl⟩

/-! ## C6: the IPFS hash check -/

/-- C6: `checkIPFSHash` returns true on the empty hash; on a non-empty hash
it returns true exactly when `CheckEncodedIPFS` succeeds, the hash has 46
characters and `DecodeIPFS` of it is non-empty; whenever it returns false the
create button is disabled in the dialog it leaves. -/
theorem checkIPFSHash_accepts (env : Env) (s : Dialog) (hash : String) :
    (checkIPFSHash env s "").1 = true ∧
    (hash ≠ "" →
      ((checkIPFSHash env s hash).1 = true ↔
        env.CheckEncodedIPFS hash = true ∧ qsize hash = 46 ∧ env.DecodeIPFS hash ≠ "")) ∧
    ((checkIPFSHash env s hash).1 = false →
      (checkIPFSHash env s hash).2.createAssetButton = false) := by
  refine ⟨?_, ?_, ?_⟩
  · simp [checkIPFSHash, qIsEmpty, qsize]
  · intro hne
    have hq : qIsEmpty hash = false := (qIsEmpty_false_iff hash).2 hne
    unfold checkIPFSHash
    simp only [hq, Bool.not_false, if_true]
    cases h1 : env.CheckEncodedIPFS hash
    · simp
    · by_cases h2 : qsize hash = 46
      · cases h3 : (env.DecodeIPFS hash).isEmpty
        · have : env.DecodeIPFS hash ≠ "" := by
            intro he; rw [he] at h3; exact absurd h3 (by decide)
          simp [h2, h3, this]
        · have : env.DecodeIPFS hash = "" := (String.isEmpty_iff _).1 h3
          simp [h2, h3, this]
      · simp [h2]
  · unfold checkIPFSHash
    simp only [disableCreateButton]
    split_ifs <;> simp

/-- C6 on a hash that does not start with `Qm`: it is refused and the create
button of the filled-in form is disabled. -/
theorem checkIPFSHash_accepts_witness :
    ("bad" ≠ "" ∧ (checkIPFSHash sampleEnv sampleForm "bad").1 = false) ∧
    (checkIPFSHash sampleEnv sampleForm "bad").2.createAssetButton = false :=
  ⟨⟨by decide, by decide⟩,
   (checkIPFSHash_accepts sampleEnv sampleForm "bad").2.2 (by decide)⟩

/-! ## C7: the asset that is issued -/

/-- C7: `onCreateAssetClicked` returns, and the one asset it builds and hands
to `CreateAssetTransaction` carries the name `GetAssetName`, the units of the
unit box, reissuable flag 1 exactly when the reissuable box is checked (0
otherwise) and IPFS flag 1 exactly when the IPFS box is checked and the IPFS
text is non-empty (0 otherwise); with IPFS flag 0 its hash field is empty and
with IPFS flag 1 it is `DecodeIPFS` of the IPFS text. -/
theorem onCreateAssetClicked_asset (env : Env) (s : Dialog) (retval : Int)
    (okClicked : Bool) (m : WalletModel) (o : OptionsModel) (address : String)
    (log0 : List Effect) (hm : env.model = some m) (ho : m.optionsModel = some o)
    (hr : receiveAddress m s = some (address, log0)) :
    ∃ s1 log asset, onCreateAssetClicked env s retval okClicked = some (s1, log) ∧
      (∀ ctrl a adr, Effect.CreateAssetTransaction ctrl a adr ∈ log ↔
        (ctrl = createControl env o s ∧ a = asset ∧ adr = address)) ∧
      asset.strName = GetAssetName env s ∧
      asset.units = s.unitBox ∧
      (asset.nReissuable = 1 ↔ s.reissuableBox = true) ∧
      (asset.nReissuable = 0 ↔ s.reissuableBox = false) ∧
      (asset.nHasIPFS = 1 ↔ (s.ipfsBox = true ∧ s.ipfsText ≠ "")) ∧
      (asset.nHasIPFS = 0 ↔ ¬ (s.ipfsBox = true ∧ s.ipfsText ≠ "")) ∧
      (asset.nHasIPFS = 0 → asset.strIPFSHash = "") ∧
      (asset.nHasIPFS = 1 → asset.strIPFSHash = env.DecodeIPFS s.ipfsText) := by
  have hl := receiveAddress_log m s address log0 hr
  have hlog : ∃ s1 log, onCreateAssetClicked env s retval okClicked = some (s1, log) ∧
      ∀ ctrl a adr, Effect.CreateAssetTransaction ctrl a adr ∈ log ↔
        (ctrl = createControl env o s ∧ a = newAssetOfForm env s ∧ adr = address) := by
    unfold onCreateAssetClicked
    simp only [hm, hr, ho]
    cases hc : env.CreateAssetTransaction (createControl env o s) (newAssetOfForm env s)
        address with
    | error e =>
      refine ⟨_, _, rfl, ?_⟩
      rcases hl with hl | hl <;> simp [hl]
    | ok r =>
      obtain ⟨tx, fee⟩ := r
      by_cases hy : retval = QMessageBox.Yes
      · cases hs : env.SendAssetTransaction tx with
        | error e =>
          refine ⟨_, _, by simp only [hy, hs, ne_eq, not_true_eq_false, if_false]; rfl, ?_⟩
          rcases hl with hl | hl <;> simp [hl]
        | ok txid =>
          refine ⟨_, _, by simp only [hy, hs, ne_eq, not_true_eq_false, if_false]; rfl, ?_⟩
          rcases hl with hl | hl <;> cases okClicked <;> simp [hl]
      · refine ⟨_, _, by simp only [hy, ne_eq, not_false_eq_true, if_true]; rfl, ?_⟩
        rcases hl with hl | hl <;> simp [hl]
  obtain ⟨s1, log, h1, h2⟩ := hlog
  refine ⟨s1, log, newAssetOfForm env s, h1, h2, rfl, rfl, ?_, ?_, ?_, ?_, ?_, ?_⟩
  · cases hb : s.reissuableBox <;> simp [newAssetOfForm, hb]
  · cases hb : s.reissuableBox <;> simp [newAssetOfForm, hb]
  · cases hb : s.ipfsBox <;> cases hq : qIsEmpty s.ipfsText <;>
      simp [newAssetOfForm, hb, hq] <;>
      first
        | exact (qIsEmpty_false_iff _).1 hq
        | exact (qIsEmpty_iff _).1 hq
  · cases hb : s.ipfsBox <;> cases hq : qIsEmpty s.ipfsText <;>
      simp [newAssetOfForm, hb, hq] <;>
      first
        | exact (qIsEmpty_false_iff _).1 hq
        | exact (qIsEmpty_iff _).1 hq
  · cases hb : s.ipfsBox <;> cases hq : qIsEmpty s.ipfsText <;>
      simp [newAssetOfForm, hb, hq]
  · cases hb : s.ipfsBox <;> cases hq : qIsEmpty s.ipfsText <;>
      simp [newAssetOfForm, hb, hq]

/-- C7 on the filled-in form with the IPFS box checked and a hash entered:
the hypotheses hold and the asset is as described. -/
theorem onCreateAssetClicked_asset_witness :
    sampleEnv.model = some sampleWallet ∧
    sampleWallet.optionsModel = some { displayUnit := 0, coinControlFeatures := true } ∧
    receiveAddress sampleWallet { sampleForm with ipfsBox := true, ipfsText := "Qmabc" } =
      some ("Afresh", [Effect.addRow]) ∧
    ∃ s1 log asset,
      onCreateAssetClicked sampleEnv { sampleForm with ipfsBox := true, ipfsText := "Qmabc" }
        QMessageBox.Cancel false = some (s1, log) ∧
      (∀ ctrl a adr, Effect.CreateAssetTransaction ctrl a adr ∈ log ↔
        (ctrl = createControl sampleEnv { displayUnit := 0, coinControlFeatures := true }
            { sampleForm with ipfsBox := true, ipfsText := "Qmabc" } ∧
          a = asset ∧ adr = "Afresh")) ∧
      asset.strName =
        GetAssetName sampleEnv { sampleForm with ipfsBox := true, ipfsText := "Qmabc" } ∧
      asset.units = 0 ∧
      (asset.nReissuable = 1 ↔ true = true) ∧
      (asset.nReissuable = 0 ↔ true = false) ∧
      (asset.nHasIPFS = 1 ↔ (true = true ∧ "Qmabc" ≠ "")) ∧
      (asset.nHasIPFS = 0 ↔ ¬ (true = true ∧ "Qmabc" ≠ "")) ∧
      (asset.nHasIPFS = 0 → asset.strIPFSHash = "") ∧
      (asset.nHasIPFS = 1 → asset.strIPFSHash = sampleEnv.DecodeIPFS "Qmabc") :=
  ⟨rfl, rfl, by decide,
   onCreateAssetClicked_asset sampleEnv { sampleForm with ipfsBox := true, ipfsText := "Qmabc" }
     QMessageBox.Cancel false sampleWallet { displayUnit := 0, coinControlFeatures := true }
     "Afresh" [Effect.addRow] rfl rfl (by decide)⟩

/-! ## C8: the amount that is burned -/

/-- C8: with a wallet model and an options model, `coinControlUpdateLabels`
leaves the pay-amount list equal to the one-element list of
`GetBurnAmount` of the selected type and the subtract-fee flag false; and
`onCreateAssetClicked` returns, showing a confirmation dialog exactly when
`CreateAssetTransaction` succeeded, whose total amount is the 64-bit sum of
`GetBurnAmount` of the selected type and the required fee, which is their sum
whenever that sum is a 64-bit amount. -/
theorem burn_amount_paid_and_confirmed (env : Env) (s : Dialog) (retval : Int)
    (okClicked : Bool) (m : WalletModel) (o : OptionsModel)
    (hm : env.model = some m) (ho : m.optionsModel = some o) :
    (coinControlUpdateLabels env s).payAmounts = [env.GetBurnAmount s.type] ∧
    (coinControlUpdateLabels env s).fSubtractFeeFromAmount = false ∧
    (∀ address log0, receiveAddress m s = some (address, log0) →
      ∃ s1 log, onCreateAssetClicked env s retval okClicked = some (s1, log) ∧
        (∀ tx nFeeRequired,
          env.CreateAssetTransaction (createControl env o s) (newAssetOfForm env s) address =
            Except.ok (tx, nFeeRequired) →
          ∃ c, Effect.confirmationDialog c ∈ log ∧
            (∀ d, Effect.confirmationDialog d ∈ log → d = c) ∧
            c.totalAmount = wrapInt64 (env.GetBurnAmount s.type + nFeeRequired) ∧
            (-(2 ^ 63) ≤ env.GetBurnAmount s.type + nFeeRequired →
              env.GetBurnAmount s.type + nFeeRequired < 2 ^ 63 →
              c.totalAmount = env.GetBurnAmount s.type + nFeeRequired)) ∧
        (∀ e, env.CreateAssetTransaction (createControl env o s) (newAssetOfForm env s)
            address = Except.error e → ∀ d, Effect.confirmationDialog d ∉ log)) := by
  refine ⟨?_, ?_, ?_⟩
  · unfold coinControlUpdateLabels
    simp only [hm, ho]
    split_ifs <;> simp
  · unfold coinControlUpdateLabels
    simp only [hm, ho]
    split_ifs <;> simp
  · intro address log0 hr
    have hl := receiveAddress_log m s address log0 hr
    unfold onCreateAssetClicked
    simp only [hm, hr, ho]
    cases hc : env.CreateAssetTransaction (createControl env o s) (newAssetOfForm env s)
        address with
    | error e =>
      refine ⟨_, _, rfl, ?_⟩
      rcases hl with hl | hl <;> simp [hl]
    | ok r =>
      obtain ⟨tx, fee⟩ := r
      have hw : ∀ c : Confirmation,
          c.totalAmount = wrapInt64 (env.GetBurnAmount s.type + fee) →
          (-(2 ^ 63) ≤ env.GetBurnAmount s.type + fee →
            env.GetBurnAmount s.type + fee < 2 ^ 63 →
            c.totalAmount = env.GetBurnAmount s.type + fee) := by
        intro c hc1 h1 h2
        rw [hc1, wrapInt64_of_range _ h1 h2]
      by_cases hy : retval = QMessageBox.Yes
      · cases hs : env.SendAssetTransaction tx with
        | error e =>
          refine ⟨_, _, by simp only [hy, hs, ne_eq, not_true_eq_false, if_false]; rfl, ?_⟩
          refine ⟨?_, by simp⟩
          intro tx1 fee1 he
          simp only [Except.ok.injEq, Prod.mk.injEq] at he
          obtain ⟨_, rfl⟩ := he
          refine ⟨confirmationOf env s (newAssetOfForm env s) address fee, ?_, ?_, rfl,
            hw _ rfl⟩ <;> rcases hl with hl | hl <;> simp [hl]
        | ok txid =>
          refine ⟨_, _, by simp only [hy, hs, ne_eq, not_true_eq_false, if_false]; rfl, ?_⟩
          refine ⟨?_, by simp⟩
          intro tx1 fee1 he
          simp only [Except.ok.injEq, Prod.mk.injEq] at he
          obtain ⟨_, rfl⟩ := he
          refine ⟨confirmationOf env s (newAssetOfForm env s) address fee, ?_, ?_, rfl,
            hw _ rfl⟩ <;> rcases hl with hl | hl <;>
            cases okClicked <;> simp [hl]
      · refine ⟨_, _, by simp only [hy, ne_eq, not_false_eq_true, if_true]; rfl, ?_⟩
        refine ⟨?_, by simp⟩
        intro tx1 fee1 he
        simp only [Except.ok.injEq, Prod.mk.injEq] at he
        obtain ⟨_, rfl⟩ := he
        refine ⟨confirmationOf env s (newAssetOfForm env s) address fee, ?_, ?_, rfl,
            hw _ rfl⟩ <;> rcases hl with hl | hl <;> simp [hl]

/-- C8 on the filled-in form: the pay amounts are the burn amount of a main
asset, 500 coins, and the confirmation dialog totals it with the fee of 1000. -/
theorem burn_amount_paid_and_confirmed_witness :
    sampleEnv.model = some sampleWallet ∧
    sampleWallet.optionsModel = some { displayUnit := 0, coinControlFeatures := true } ∧
    receiveAddress sampleWallet sampleForm = some ("Afresh", [Effect.addRow]) ∧
    sampleEnv.CreateAssetTransaction
        (createControl sampleEnv { displayUnit := 0, coinControlFeatures := true } sampleForm)
        (newAssetOfForm sampleEnv sampleForm) "Afresh" = Except.ok (7, 1000) ∧
    (coinControlUpdateLabels sampleEnv sampleForm).payAmounts = [50000000000] ∧
    (coinControlUpdateLabels sampleEnv sampleForm).fSubtractFeeFromAmount = false ∧
    ∃ s1 log, onCreateAssetClicked sampleEnv sampleForm QMessageBox.Yes true = some (s1, log) ∧
      ∃ c, Effect.confirmationDialog c ∈ log ∧ c.totalAmount = 50000000000 + 1000 := by
  have h := burn_amount_paid_and_confirmed sampleEnv sampleForm QMessageBox.Yes true
    sampleWallet { displayUnit := 0, coinControlFeatures := true } rfl rfl
  obtain ⟨s1, log, h1, h2, _⟩ := h.2.2 "Afresh" [Effect.addRow] (by decide)
  obtain ⟨c, hc1, _, _, hc4⟩ := h2 7 1000 rfl
  exact ⟨rfl, rfl, by decide, rfl, h.1, h.2.1, s1, log, h1, c, hc1,
    hc4 (by decide) (by decide)⟩

/-! ## C9: the custom change address -/

/-- C9: with a wallet model and its address table, after
`coinControlChangeEdited` the change destination is the decoded destination
when the text is non-empty, the destination is valid and the wallet can spend
to it or the user answered Yes; otherwise it is `CNoDestination`. -/
theorem coinControlChangeEdited_destChange (env : Env) (s : Dialog) (text : String)
    (btnRetVal : Int) (m : WalletModel) (t : AddressTableModel)
    (hm : env.model = some m) (ht : m.addressTableModel = some t) :
    (coinControlChangeEdited env s text btnRetVal).coinControl.destChange =
      if text ≠ "" ∧ env.IsValidDestination (env.DecodeDestination text) = true ∧
          (m.IsSpendable (env.DecodeDestination text) = true ∨ btnRetVal = QMessageBox.Yes)
      then env.DecodeDestination text
      else CTxDestination.CNoDestination := by
  unfold coinControlChangeEdited
  simp only [hm, ht]
  by_cases he : text = ""
  · subst he
    simp [qIsEmpty, qsize]
  · have hq := (qIsEmpty_false_iff text).2 he
    simp only [hq, he, ne_eq, not_false_eq_true, true_and]
    cases hv : env.IsValidDestination (env.DecodeDestination text)
    · simp
    · cases hsp : m.IsSpendable (env.DecodeDestination text)
      · by_cases hy : btnRetVal = QMessageBox.Yes <;> simp [hy]
      · simp

/-- C9 on an address of another wallet, with the answer Cancel: no change
destination is set. -/
theorem coinControlChangeEdited_destChange_witness :
    sampleEnv.model = some sampleWallet ∧
    sampleWallet.addressTableModel =
      some { addRow := "Afresh", labelForAddress := fun _ => "" } ∧
    (coinControlChangeEdited sampleEnv sampleForm "Aother" QMessageBox.Cancel
      ).coinControl.destChange =
      if "Aother" ≠ "" ∧
          sampleEnv.IsValidDestination (sampleEnv.DecodeDestination "Aother") = true ∧
          (sampleWallet.IsSpendable (sampleEnv.DecodeDestination "Aother") = true ∨
            QMessageBox.Cancel = QMessageBox.Yes)
      then sampleEnv.DecodeDestination "Aother"
      else CTxDestination.CNoDestination :=
  ⟨rfl, rfl,
   coinControlChangeEdited_destChange sampleEnv sampleForm "Aother" QMessageBox.Cancel
     sampleWallet { addRow := "Afresh", labelForAddress := fun _ => "" } rfl rfl⟩

/-! ## C10: the controls of a unique asset -/

/-- The controls of quantity, units and reissuability are left alone by
`coinControlUpdateLabels`. -/
theorem coinControlUpdateLabels_controls (env : Env) (s : Dialog) :
    (coinControlUpdateLabels env s).quantitySpinBox = s.quantitySpinBox ∧
    (coinControlUpdateLabels env s).unitBox = s.unitBox ∧
    (coinControlUpdateLabels env s).reissuableBox = s.reissuableBox ∧
    (coinControlUpdateLabels env s).quantitySpinBoxEnabled = s.quantitySpinBoxEnabled ∧
    (coinControlUpdateLabels env s).unitBoxEnabled = s.unitBoxEnabled ∧
    (coinControlUpdateLabels env s).reissuableBoxEnabled = s.reissuableBoxEnabled := by
  unfold coinControlUpdateLabels
  split
  · simp
  · split
    · simp
    · simp only []; split_ifs <;> simp

/-- The controls of quantity, units and reissuability are left alone by
`UpdateAssetNameMaxSize`. -/
theorem UpdateAssetNameMaxSize_controls (env : Env) (s : Dialog) :
    (UpdateAssetNameMaxSize env s).quantitySpinBox = s.quantitySpinBox ∧
    (UpdateAssetNameMaxSize env s).unitBox = s.unitBox ∧
    (UpdateAssetNameMaxSize env s).reissuableBox = s.reissuableBox ∧
    (UpdateAssetNameMaxSize env s).quantitySpinBoxEnabled = s.quantitySpinBoxEnabled ∧
    (UpdateAssetNameMaxSize env s).unitBoxEnabled = s.unitBoxEnabled ∧
    (UpdateAssetNameMaxSize env s).reissuableBoxEnabled = s.reissuableBoxEnabled := by
  unfold UpdateAssetNameMaxSize
  split_ifs <;> simp

/-- Each of the six control fields of a conditional dialog is the conditional
of the fields. -/
theorem ite_controls (c : Prop) [Decidable c] (a b : Dialog) :
    (if c then a else b).quantitySpinBox =
      (if c then a.quantitySpinBox else b.quantitySpinBox) ∧
    (if c then a else b).unitBox = (if c then a.unitBox else b.unitBox) ∧
    (if c then a else b).reissuableBox = (if c then a.reissuableBox else b.reissuableBox) ∧
    (if c then a else b).quantitySpinBoxEnabled =
      (if c then a.quantitySpinBoxEnabled else b.quantitySpinBoxEnabled) ∧
    (if c then a else b).unitBoxEnabled =
      (if c then a.unitBoxEnabled else b.unitBoxEnabled) ∧
    (if c then a else b).reissuableBoxEnabled =
      (if c then a.reissuableBoxEnabled else b.reissuableBoxEnabled) := by
  split_ifs <;> simp

/-- The six control fields after `onAssetTypeActivated` are those set by
`setUniqueSelected` when the type it settles on is UNIQUE and those set by
`clearSelected` otherwise. -/
theorem onAssetTypeActivated_selected (env : Env) (s : Dialog) (index : Int) :
    (index = env.UNIQUE →
      (onAssetTypeActivated env s index).quantitySpinBox = 1 ∧
      (onAssetTypeActivated env s index).unitBox = 0 ∧
      (onAssetTypeActivated env s index).reissuableBox = false ∧
      (onAssetTypeActivated env s index).quantitySpinBoxEnabled = false ∧
      (onAssetTypeActivated env s index).unitBoxEnabled = false ∧
      (onAssetTypeActivated env s index).reissuableBoxEnabled = false) ∧
    (index ≠ env.UNIQUE → env.ROOT ≠ env.UNIQUE →
      (onAssetTypeActivated env s index).quantitySpinBox = s.quantitySpinBox ∧
      (onAssetTypeActivated env s index).unitBox = 0 ∧
      (onAssetTypeActivated env s index).reissuableBox = true ∧
      (onAssetTypeActivated env s index).quantitySpinBoxEnabled = true ∧
      (onAssetTypeActivated env s index).unitBoxEnabled = true ∧
      (onAssetTypeActivated env s index).reissuableBoxEnabled = true) := by
  constructor
  · intro hi
    subst hi
    simp [onAssetTypeActivated, coinControlUpdateLabels_controls,
      UpdateAssetNameMaxSize_controls, updatePresentedAssetName, ite_controls,
      setUniqueSelected]
  · intro hi hru
    by_cases hr : index = env.ROOT
    · subst hr
      simp [onAssetTypeActivated, coinControlUpdateLabels_controls,
        UpdateAssetNameMaxSize_controls, updatePresentedAssetName, ite_controls,
        clearSelected, hi]
    · by_cases hs : index = env.SUB
      · subst hs
        simp [onAssetTypeActivated, coinControlUpdateLabels_controls,
          UpdateAssetNameMaxSize_controls, updatePresentedAssetName, ite_controls,
          clearSelected, hi]
      · simp [onAssetTypeActivated, coinControlUpdateLabels_controls,
          UpdateAssetNameMaxSize_controls, updatePresentedAssetName, ite_controls,
          clearSelected, hi, hr, hs, hru]

/-- C10: after `onAssetTypeActivated` with the index of UNIQUE the quantity
is 1, the units are 0, the reissuable box is unchecked and the three controls
are disabled; after it with the index of ROOT or SUB the three controls are
enabled, the reissuable box is checked and the units are 0. -/
theorem onAssetTypeActivated_controls (env : Env) (s : Dialog) (index : Int)
    (h : env.distinctCodes) :
    ((onAssetTypeActivated env s env.UNIQUE).quantitySpinBox = 1 ∧
     (onAssetTypeActivated env s env.UNIQUE).unitBox = 0 ∧
     (onAssetTypeActivated env s env.UNIQUE).reissuableBox = false ∧
     (onAssetTypeActivated env s env.UNIQUE).quantitySpinBoxEnabled = false ∧
     (onAssetTypeActivated env s env.UNIQUE).unitBoxEnabled = false ∧
     (onAssetTypeActivated env s env.UNIQUE).reissuableBoxEnabled = false) ∧
    (index = env.ROOT ∨ index = env.SUB →
     (onAssetTypeActivated env s index).quantitySpinBoxEnabled = true ∧
     (onAssetTypeActivated env s index).unitBoxEnabled = true ∧
     (onAssetTypeActivated env s index).reissuableBoxEnabled = true ∧
     (onAssetTypeActivated env s index).reissuableBox = true ∧
     (onAssetTypeActivated env s index).unitBox = 0) := by
  obtain ⟨_, h2, h3⟩ := h
  constructor
  · exact (onAssetTypeActivated_selected env s env.UNIQUE).1 rfl
  · intro hi
    have hne : index ≠ env.UNIQUE := by
      rcases hi with hi | hi <;> rw [hi] <;> assumption
    obtain ⟨_, c2, c3, c4, c5, c6⟩ := (onAssetTypeActivated_selected env s index).2 hne h2
    exact ⟨c4, c5, c6, c3, c2⟩

/-- C10 in the concrete environment: choosing sub asset on the filled-in form
enables the three controls, checks the reissuable box and zeroes the units. -/
theorem onAssetTypeActivated_controls_witness :
    sampleEnv.distinctCodes ∧ (1 = sampleEnv.ROOT ∨ 1 = sampleEnv.SUB) ∧
    (onAssetTypeActivated sampleEnv sampleForm 1).quantitySpinBoxEnabled = true ∧
    (onAssetTypeActivated sampleEnv sampleForm 1).unitBoxEnabled = true ∧
    (onAssetTypeActivated sampleEnv sampleForm 1).reissuableBoxEnabled = true ∧
    (onAssetTypeActivated sampleEnv sampleForm 1).reissuableBox = true ∧
    (onAssetTypeActivated sampleEnv sampleForm 1).unitBox = 0 :=
  ⟨by decide, Or.inr rfl,
   (onAssetTypeActivated_controls sampleEnv sampleForm 1 (by decide)).2 (Or.inr rfl)⟩

/-! ## C11: the type after a choice in the type box -/

/-- The selected type and the create button are left alone by
`coinControlUpdateLabels`. -/
theorem coinControlUpdateLabels_type (env : Env) (s : Dialog) :
    (coinControlUpdateLabels env s).type = s.type ∧
    (coinControlUpdateLabels env s).createAssetButton = s.createAssetButton := by
  unfold coinControlUpdateLabels
  split
  · simp
  · split
    · simp
    · simp only []; split_ifs <;> simp

/-- The selected type and the create button are left alone by
`UpdateAssetNameMaxSize`. -/
theorem UpdateAssetNameMaxSize_type (env : Env) (s : Dialog) :
    (UpdateAssetNameMaxSize env s).type = s.type ∧
    (UpdateAssetNameMaxSize env s).createAssetButton = s.createAssetButton := by
  unfold UpdateAssetNameMaxSize
  split_ifs <;> simp

/-- The type of a conditional dialog is the conditional of the types. -/
theorem ite_type (c : Prop) [Decidable c] (a b : Dialog) :
    (if c then a else b).type = (if c then a.type else b.type) := by
  split_ifs <;> rfl

/-- The type `onAssetTypeActivated` settles on. -/
theorem onAssetTypeActivated_type_eq (env : Env) (s : Dialog) (index : Int) :
    (onAssetTypeActivated env s index).type =
      if index = env.ROOT ∨ index = env.SUB ∨ index = env.UNIQUE then index else env.ROOT := by
  by_cases hr : index = env.ROOT
  · simp [onAssetTypeActivated, coinControlUpdateLabels_type, UpdateAssetNameMaxSize_type,
      updatePresentedAssetName, ite_type, setUniqueSelected, clearSelected, hr]
  · by_cases hs : index = env.SUB
    · simp [onAssetTypeActivated, coinControlUpdateLabels_type, UpdateAssetNameMaxSize_type,
        updatePresentedAssetName, ite_type, setUniqueSelected, clearSelected, hs]
    · by_cases hu : index = env.UNIQUE
      · simp [onAssetTypeActivated, coinControlUpdateLabels_type, UpdateAssetNameMaxSize_type,
          updatePresentedAssetName, ite_type, setUniqueSelected, clearSelected, hu]
      · simp [onAssetTypeActivated, coinControlUpdateLabels_type, UpdateAssetNameMaxSize_type,
          updatePresentedAssetName, ite_type, setUniqueSelected, clearSelected, hr, hs, hu]

/-- C11: after `onAssetTypeActivated` the selected type is the code of ROOT,
SUB or UNIQUE: it is the index when the index is one of the three codes and
ROOT otherwise; and the create button is disabled. -/
theorem onAssetTypeActivated_type (env : Env) (s : Dialog) (index : Int) :
    ((onAssetTypeActivated env s index).type = env.ROOT ∨
     (onAssetTypeActivated env s index).type = env.SUB ∨
     (onAssetTypeActivated env s index).type = env.UNIQUE) ∧
    (index = env.ROOT ∨ index = env.SUB ∨ index = env.UNIQUE →
      (onAssetTypeActivated env s index).type = index) ∧
    (index ≠ env.ROOT → index ≠ env.SUB → index ≠ env.UNIQUE →
      (onAssetTypeActivated env s index).type = env.ROOT) ∧
    (onAssetTypeActivated env s index).createAssetButton = false := by
  have ht := onAssetTypeActivated_type_eq env s index
  refine ⟨?_, ?_, ?_, ?_⟩
  · rw [ht]
    split_ifs with h
    · exact h
    · exact Or.inl rfl
  · intro h
    rw [ht, if_pos h]
  · intro hr hs hu
    rw [ht, if_neg (by simp [hr, hs, hu])]
  · unfold onAssetTypeActivated
    simp only [coinControlUpdateLabels_type]

/-- C11 in the concrete environment: index 2 selects the unique type, index
7 falls back to the main type. -/
theorem onAssetTypeActivated_type_witness :
    (2 = sampleEnv.ROOT ∨ 2 = sampleEnv.SUB ∨ 2 = sampleEnv.UNIQUE) ∧
    (onAssetTypeActivated sampleEnv sampleForm 2).type = 2 ∧
    (7 ≠ sampleEnv.ROOT ∧ 7 ≠ sampleEnv.SUB ∧ 7 ≠ sampleEnv.UNIQUE) ∧
    (onAssetTypeActivated sampleEnv sampleForm 7).type = sampleEnv.ROOT :=
  ⟨by decide,
   (onAssetTypeActivated_type sampleEnv sampleForm 2).2.1 (by decide),
   by decide,
   (onAssetTypeActivated_type sampleEnv sampleForm 7).2.2.1 (by decide) (by decide)
     (by decide)⟩

/-! ## C12: upper-casing of the name -/

/-- C13: `updateCoinControlState` sets the fee rate to the custom fee exactly
when the custom-fee radio button is checked and clears it otherwise, sets the
confirmation target to `getConfTargetForIndex` of the current index of the
selector, and changes no other field; and, with a model and its options,
`updateSmartFeeLabel` returns, the coin control it hands to `GetMinimumFee`
is a fresh one with the confirmation target of the selector and no fee rate,
whichever radio button is checked, and every label it writes comes from the
estimate `GetMinimumFee` gives for that coin control. -/
theorem updateCoinControlState_fee (env : Env) (fees : FeeEnv) (s : Dialog)
    (ctrl : CCoinControl) (radioSmartFee : Bool) :
    ((updateCoinControlState env s ctrl).m_feerate = some s.customFee ↔
      s.radioCustomFee = true) ∧
    (s.radioCustomFee = false → (updateCoinControlState env s ctrl).m_feerate = none) ∧
    (updateCoinControlState env s ctrl).m_confirm_target =
      some (env.getConfTargetForIndex s.confTargetSelector) ∧
    updateCoinControlState env s ctrl =
      { ctrl with
        m_feerate := (updateCoinControlState env s ctrl).m_feerate,
        m_confirm_target := (updateCoinControlState env s ctrl).m_confirm_target } ∧
    (∀ m o, env.model = some m → m.optionsModel = some o →
      ∃ r, updateSmartFeeLabel env fees s radioSmartFee = some r ∧
        r.coin_control.m_feerate = none ∧
        r.coin_control.m_confirm_target =
          some (env.getConfTargetForIndex s.confTargetSelector) ∧
        r.coin_control =
          { CCoinControl.null with
            m_confirm_target := some (env.getConfTargetForIndex s.confTargetSelector) } ∧
        r.labelSmartFee =
          fees.formatWithUnit o.displayUnit (fees.GetMinimumFee 1000 r.coin_control).fee ++
            "/kB" ∧
        r.labelSmartFee2 = (fees.GetMinimumFee 1000 r.coin_control).fallback ∧
        r.fallbackFeeWarningLabel = (fees.GetMinimumFee 1000 r.coin_control).fallback ∧
        r.labelFeeEstimation =
          (if (fees.GetMinimumFee 1000 r.coin_control).fallback = true then ""
           else fees.estimationText (fees.GetMinimumFee 1000 r.coin_control).returnedTarget) ∧
        r.labelFeeMinimized =
          (if radioSmartFee = true then r.labelSmartFee
           else fees.formatWithUnit o.displayUnit s.customFee ++ "/kB")) := by
  refine ⟨?_, ?_, ?_, ?_, ?_⟩
  · cases h : s.radioCustomFee <;> simp [updateCoinControlState, h]
  · intro h
    simp [updateCoinControlState, h]
  · simp [updateCoinControlState]
  · cases h : s.radioCustomFee <;> simp [updateCoinControlState, h]
  · intro m o hm ho
    have hc : ({ updateCoinControlState env s CCoinControl.null with m_feerate := none } :
        CCoinControl) =
        { CCoinControl.null with
          m_confirm_target := some (env.getConfTargetForIndex s.confTargetSelector) } := by
      cases h : s.radioCustomFee <;> simp [updateCoinControlState, h, CCoinControl.null]
    unfold updateSmartFeeLabel
    simp only [hm, ho, hc]
    split_ifs <;> refine ⟨_, rfl, ?_⟩ <;> simp_all

/-- C13 in the concrete environment with the custom-fee button checked and a
custom fee of 2000: the control of `updateCoinControlState` carries the
custom fee, the control given to `GetMinimumFee` carries none, and the label
shows the estimate of 1000 made without fee rate, not the custom fee. -/
theorem updateCoinControlState_fee_witness :
    sampleEnv.model = some sampleWallet ∧
    sampleWallet.optionsModel = some { displayUnit := 0, coinControlFeatures := true } ∧
    (updateCoinControlState sampleEnv
        { sampleForm with radioCustomFee := true, customFee := 2000 }
        CCoinControl.null).m_feerate = some 2000 ∧
    (sampleFees.GetMinimumFee 1000
        (updateCoinControlState sampleEnv
          { sampleForm with radioCustomFee := true, customFee := 2000 }
          CCoinControl.null)).fee = 2000 ∧
    ∃ r, updateSmartFeeLabel sampleEnv sampleFees
        { sampleForm with radioCustomFee := true, customFee := 2000 } false = some r ∧
      r.coin_control.m_feerate = none ∧
      r.labelSmartFee = "0.00001000 ASTRAL/kB" ∧
      r.labelFeeMinimized = "0.00002000 ASTRAL/kB" := by
  have h := updateCoinControlState_fee sampleEnv sampleFees
    { sampleForm with radioCustomFee := true, customFee := 2000 } CCoinControl.null false
  obtain ⟨r, h1, h2, _, h4, h5, _, _, _, h9⟩ :=
    h.2.2.2.2 sampleWallet { displayUnit := 0, coinControlFeatures := true } rfl rfl
  have hfee : (sampleFees.GetMinimumFee 1000
      (updateCoinControlState sampleEnv
        { sampleForm with radioCustomFee := true, customFee := 2000 }
        CCoinControl.null)).fee = 2000 := by decide
  have hl : r.labelSmartFee = "0.00001000 ASTRAL/kB" := by
    rw [h5, h4]; decide
  have hmin : r.labelFeeMinimized = "0.00002000 ASTRAL/kB" := by
    rw [h9]
    simp only [Bool.false_eq_true, if_false]
    decide
  exact ⟨rfl, rfl, h.1.2 rfl, hfee, r, h1, h2, hl, hmin⟩

/-! ## C14: the fee radio button at construction -/

theorem QSettings.contains_setValue (q : QSettings) (key k : String) (v : QVariant) :
    (q.setValue key v).contains k = if k = key then true else q.contains k := by
  unfold QSettings.setValue QSettings.contains
  by_cases h : k = key <;> simp [h]

theorem QSettings.value_setValue (q : QSettings) (key k : String) (v : QVariant) :
    (q.setValue key v).value k = if k = key then v else q.value k := by
  unfold QSettings.setValue QSettings.value
  by_cases h : k = key <;> simp [h]

theorem QSettings.contains_ite (c : Prop) [Decidable c] (a b : QSettings) (k : String) :
    QSettings.contains (if c then a else b) k = if c then a.contains k else b.contains k := by
  split_ifs <;> rfl

theorem QSettings.value_ite (c : Prop) [Decidable c] (a b : QSettings) (k : String) :
    QSettings.value (if c then a else b) k = if c then a.value k else b.value k := by
  split_ifs <;> rfl

/-- The setting `nFeeRadio` the constructor reads back, in terms of the
settings it found. -/
theorem initFeeSection_radio (d : Int) (q : QSettings) :
    (initFeeSection d q).checkedId =
      max 0 (min 1
        (if q.contains "nFeeRadio" = true then (q.value "nFeeRadio").toInt
         else if q.contains "nTransactionFee" = true ∧
             (q.value "nTransactionFee").toLongLong > 0 then 1
         else 0)) := by
  have e1 : ("nFeeRadio" = "fFeeSectionMinimized") = False := by decide
  have e2 : ("nTransactionFee" = "fFeeSectionMinimized") = False := by decide
  have e3 : ("nFeeRadio" = "nSmartFeeSliderPosition") = False := by decide
  have e4 : ("nFeeRadio" = "nTransactionFee") = False := by decide
  have e5 : ("nFeeRadio" = "fPayOnlyMinFee") = False := by decide
  have e6 : ("nTransactionFee" = "nFeeRadio") = False := by decide
  unfold initFeeSection
  simp only [QSettings.value_ite, QSettings.contains_ite, QSettings.value_setValue,
    QSettings.contains_setValue, e1, e2, e3, e4, e5, e6, if_false, if_true, ite_self]
  cases h2 : q.contains "nFeeRadio" <;> cases h3 : q.contains "nTransactionFee" <;>
    by_cases h4 : (q.value "nTransactionFee").toLongLong > 0 <;>
    simp [h4, QVariant.ofInt]

/-- C14: the button of the fee group checked at construction has the id
`max 0 (min 1 v)`, which is 0 or 1, where `v` is the stored setting
`nFeeRadio` when there is one and otherwise 1 if `nTransactionFee` is stored
with a value above 0 and 0 if not. -/
theorem initFeeSection_checkedId (d : Int) (q : QSettings) :
    (initFeeSection d q).checkedId =
      max 0 (min 1
        (if q.contains "nFeeRadio" = true then (q.value "nFeeRadio").toInt
         else if q.contains "nTransactionFee" = true ∧
             (q.value "nTransactionFee").toLongLong > 0 then 1
         else 0)) ∧
    ((initFeeSection d q).checkedId = 0 ∨ (initFeeSection d q).checkedId = 1) := by
  refine ⟨initFeeSection_radio d q, ?_⟩
  rw [initFeeSection_radio]
  omega

/-- The constructor on the settings of an earlier version: the transaction
fee of 2000 makes the custom-fee button the checked one. -/
theorem initFeeSection_sample :
    (initFeeSection 1000 sampleSettings).checkedId = 1 ∧
    (initFeeSection 1000 sampleSettings).customFee = 2000 := by
  decide

/-! ## C15: when the create button is enabled -/

/-- The verdict of `checkIPFSHash` does not depend on the dialog. -/
theorem checkIPFSHash_fst (env : Env) (s t : Dialog) (hash : String) :
    (checkIPFSHash env t hash).1 = (checkIPFSHash env s hash).1 := by
  unfold checkIPFSHash
  split_ifs <;> rfl

/-- A refused hash leaves the create button disabled. -/
theorem checkIPFSHash_refused (env : Env) (s : Dialog) (hash : String)
    (h : (checkIPFSHash env s hash).1 = false) :
    (checkIPFSHash env s hash).2.createAssetButton = false := by
  unfold checkIPFSHash at h ⊢
  simp only [disableCreateButton]
  split_ifs at h ⊢ <;> simp_all

/-- The fields `CheckFormState` reads are those of the dialog once the button
is disabled and the message hidden. -/
theorem hideMessage_disable_frame (s : Dialog) :
    (hideMessage (disableCreateButton s)).type = s.type ∧
    (hideMessage (disableCreateButton s)).nameText = s.nameText ∧
    (hideMessage (disableCreateButton s)).assetList = s.assetList ∧
    (hideMessage (disableCreateButton s)).addressText = s.addressText ∧
    (hideMessage (disableCreateButton s)).ipfsBox = s.ipfsBox ∧
    (hideMessage (disableCreateButton s)).ipfsText = s.ipfsText ∧
    (hideMessage (disableCreateButton s)).checkedAvailablity = s.checkedAvailablity ∧
    (hideMessage (disableCreateButton s)).createAssetButton = false := by
  simp only [hideMessage, disableCreateButton]
  split_ifs <;> simp

/-- The create button after `CheckFormState`, branch by branch. -/
theorem CheckFormState_createAssetButton (env : Env) (s : Dialog) :
    (CheckFormState env s).createAssetButton =
      if (!(env.IsTypeCheckNameValid (AssetTypeFromInt s.type) (GetAssetName env s)).1 &&
          qsize (GetAssetName env s) != 0) = true then false
      else if (!(env.IsValidDestination (env.DecodeDestination s.addressText) ||
            qIsEmpty s.addressText) &&
          (env.IsTypeCheckNameValid (AssetTypeFromInt s.type) (GetAssetName env s)).1) = true
        then false
      else if (s.ipfsBox && !(checkIPFSHash env s s.ipfsText).1) = true then false
      else s.checkedAvailablity := by
  obtain ⟨g1, g2, g3, g4, g5, g6, g7, g8⟩ :=
    hideMessage_disable_frame { s with formChecks := s.formChecks + 1 }
  simp only [] at g1 g2 g3 g4 g5 g6 g7
  unfold CheckFormState
  simp only []
  generalize hideMessage (disableCreateButton { s with formChecks := s.formChecks + 1 }) = t
    at g1 g2 g3 g4 g5 g6 g7 g8 ⊢
  have gn : GetAssetName env t = GetAssetName env s := GetAssetName_congr env s t g1 g2 g3
  have gi : (checkIPFSHash env t s.ipfsText).1 = (checkIPFSHash env s s.ipfsText).1 :=
    checkIPFSHash_fst env s t s.ipfsText
  have gf := (checkIPFSHash_frame env t s.ipfsText).2.2.2
  have gr := checkIPFSHash_refused env t s.ipfsText
  rw [gi] at gr
  simp only [gn, g1, g4, g5, g6]
  generalize checkIPFSHash env t s.ipfsText = r at gi gf gr ⊢
  rw [g7] at gf
  cases hv : (env.IsTypeCheckNameValid (AssetTypeFromInt s.type) (GetAssetName env s)).1 <;>
  cases hq : (qsize (GetAssetName env s) != 0) <;>
  cases hd : (env.IsValidDestination (env.DecodeDestination s.addressText) ||
    qIsEmpty s.addressText) <;>
  cases hb : s.ipfsBox <;>
  cases hi : (checkIPFSHash env s s.ipfsText).1 <;>
  cases hc : s.checkedAvailablity <;>
  simp [hi, hc, gi, gf, g7, g8, showMessage, enableCreateButton, showValidMessage,
    disableCreateButton] <;>
  exact gr hi

/-- C15: with `N` the full name `GetAssetName`, `V` the verdict of
`IsTypeCheckNameValid` on it, `A` the address text and `D` the validity of its
decoded destination, `CheckFormState` leaves the create button enabled exactly
when `checkedAvailablity` is true, and `V` holds with `A` empty or `D`, or `V`
fails with `N` empty, and the IPFS box is unchecked or `checkIPFSHash` of the
IPFS text succeeds; in every other case it leaves the button disabled. -/
theorem CheckFormState_button_iff (env : Env) (s : Dialog) :
    ((CheckFormState env s).createAssetButton = true ↔
      (s.checkedAvailablity = true ∧
       (((env.IsTypeCheckNameValid (AssetTypeFromInt s.type) (GetAssetName env s)).1 = true ∧
          (s.addressText = "" ∨
            env.IsValidDestination (env.DecodeDestination s.addressText) = true)) ∨
        ((env.IsTypeCheckNameValid (AssetTypeFromInt s.type) (GetAssetName env s)).1 = false ∧
          GetAssetName env s = "")) ∧
       (s.ipfsBox = false ∨ (checkIPFSHash env s s.ipfsText).1 = true))) ∧
    ((CheckFormState env s).createAssetButton = false ↔
      ¬ (s.checkedAvailablity = true ∧
       (((env.IsTypeCheckNameValid (AssetTypeFromInt s.type) (GetAssetName env s)).1 = true ∧
          (s.addressText = "" ∨
            env.IsValidDestination (env.DecodeDestination s.addressText) = true)) ∨
        ((env.IsTypeCheckNameValid (AssetTypeFromInt s.type) (GetAssetName env s)).1 = false ∧
          GetAssetName env s = "")) ∧
       (s.ipfsBox = false ∨ (checkIPFSHash env s s.ipfsText).1 = true))) := by
  have key : (CheckFormState env s).createAssetButton = true ↔
      (s.checkedAvailablity = true ∧
       (((env.IsTypeCheckNameValid (AssetTypeFromInt s.type) (GetAssetName env s)).1 = true ∧
          (s.addressText = "" ∨
            env.IsValidDestination (env.DecodeDestination s.addressText) = true)) ∨
        ((env.IsTypeCheckNameValid (AssetTypeFromInt s.type) (GetAssetName env s)).1 = false ∧
          GetAssetName env s = "")) ∧
       (s.ipfsBox = false ∨ (checkIPFSHash env s s.ipfsText).1 = true)) := by
    rw [CheckFormState_createAssetButton]
    rw [← qsize_eq_zero_iff (GetAssetName env s), ← qIsEmpty_iff s.addressText]
    cases (env.IsTypeCheckNameValid (AssetTypeFromInt s.type) (GetAssetName env s)).1 <;>
    cases qIsEmpty s.addressText <;>
    cases env.IsValidDestination (env.DecodeDestination s.addressText) <;>
    cases s.ipfsBox <;>
    cases (checkIPFSHash env s s.ipfsText).1 <;>
    cases s.checkedAvailablity <;>
    by_cases hq : qsize (GetAssetName env s) = 0 <;>
    simp [hq]
  refine ⟨key, ?_⟩
  rw [← key]
  cases (CheckFormState env s).createAssetButton <;> simp

/-- C15 on the filled-in form: the name `ABC` is valid and was found
available, the address is empty and the IPFS box unchecked, so the create
button is enabled. -/
theorem CheckFormState_button_iff_witness :
    (sampleForm.checkedAvailablity = true ∧
       (((sampleEnv.IsTypeCheckNameValid (AssetTypeFromInt sampleForm.type)
            (GetAssetName sampleEnv sampleForm)).1 = true ∧
          (sampleForm.addressText = "" ∨
            sampleEnv.IsValidDestination
              (sampleEnv.DecodeDestination sampleForm.addressText) = true)) ∨
        ((sampleEnv.IsTypeCheckNameValid (AssetTypeFromInt sampleForm.type)
            (GetAssetName sampleEnv sampleForm)).1 = false ∧
          GetAssetName sampleEnv sampleForm = "")) ∧
       (sampleForm.ipfsBox = false ∨
         (checkIPFSHash sampleEnv sampleForm sampleForm.ipfsText).1 = true)) ∧
    (CheckFormState sampleEnv sampleForm).createAssetButton = true :=
  ⟨by decide, (CheckFormState_button_iff sampleEnv sampleForm).1.2 (by decide)⟩

end Astral
